import Mathlib

/-!
Shallow embedding of the rustboy emulator core (src/cpu.rs, src/mem.rs,
src/lcd.rs, src/timer.rs, src/joypad.rs, src/sound.rs) in Lean 4.

Machine integers are modelled as `Nat` with explicit wrapping (`% 256`,
`% 65536`) exactly where the Rust source wraps (`wrapping_add`, release-mode
`-`/`+` on `u8`/`u16`, `as u8` casts).  Byte arrays (`Vec<u8>`, `[u8; n]`)
are modelled as total functions `Nat → Nat` updated pointwise, mirroring
index assignment.  Trace/println statements in the source have no effect on
the modelled state and are omitted.
-/

set_option maxRecDepth 15000
set_option maxHeartbeats 1000000

namespace RustBoy

/-- Pointwise update of a byte-array model, mirroring `arr[i] = v`. -/
def upd (f : Nat → Nat) (i v : Nat) : Nat → Nat :=
  fun j => if j = i then v else f j

/-- `u16` subtraction as it behaves in the source (wrapping on underflow). -/
def u16sub (a b : Nat) : Nat := (a + 65536 - b % 65536) % 65536

/-- `u16` addition as it behaves in the source (wrapping on overflow). -/
def u16add (a b : Nat) : Nat := (a + b) % 65536

/-- `x.wrapping_add(1)` on `u8` (timer.rs:55, timer.rs:70, lcd.rs:300). -/
def u8succ (x : Nat) : Nat := (x + 1) % 256

/-- Modelled from the spec: interrupt.rs (declared `mod interrupt;` in
main.rs) is not among the provided sources.  The spec lists five interrupt
sources as bits of the IE/IF bitmasks, priority VBlank > LCDSTAT > Timer >
Serial > Joypad, with vectors 0x40/0x48/0x50/0x58/0x60; the sources are
modelled as bits 0..4 in that order. -/
def INTERRUPT_VBLANK : Nat := 1

/-- Modelled from the spec: LCDSTAT interrupt bit (see `INTERRUPT_VBLANK`). -/
def INTERRUPT_LCD_STAT : Nat := 2

/-- Modelled from the spec: Timer interrupt bit (see `INTERRUPT_VBLANK`). -/
def INTERRUPT_TIMER : Nat := 4

/-- Modelled from the spec: Serial interrupt bit (see `INTERRUPT_VBLANK`). -/
def INTERRUPT_SERIAL : Nat := 8

/-- Modelled from the spec: Joypad interrupt bit (see `INTERRUPT_VBLANK`). -/
def INTERRUPT_JOYPAD : Nat := 16

/-- joypad.rs:7 `struct Joypad`. -/
structure Joypad where
  flags : Nat
  up : Bool
  down : Bool
  left : Bool
  right : Bool
  b : Bool
  a : Bool
  select : Bool
  start : Bool
deriving Repr, DecidableEq

/-- joypad.rs:34 `Joypad::new`. -/
def Joypad.new : Joypad :=
  ⟨0xff, false, false, false, false, false, false, false, false⟩

/-- joypad.rs:19 `JOYPAD_SELECT_BUTTON_KEYS`. -/
def JOYPAD_SELECT_BUTTON_KEYS : Nat := 1 <<< 5

/-- joypad.rs:20 `JOYPAD_SELECT_DIRECTION_KEYS`. -/
def JOYPAD_SELECT_DIRECTION_KEYS : Nat := 1 <<< 4

/-- joypad.rs:48 `Joypad::set_flags`.  `!mask` on `u8` is modelled as
`255 ^^^ mask`. -/
def Joypad.set_flags (j : Joypad) : Joypad :=
  let f0 := j.flags ||| 0x0f
  let f1 :=
    if f0 &&& JOYPAD_SELECT_DIRECTION_KEYS = 0 then
      let fa := if j.up then f0 &&& (255 ^^^ (1 <<< 2)) else f0
      let fb := if j.down then fa &&& (255 ^^^ (1 <<< 3)) else fa
      let fc := if j.left then fb &&& (255 ^^^ (1 <<< 1)) else fb
      if j.right then fc &&& (255 ^^^ (1 <<< 0)) else fc
    else f0
  let f2 :=
    if f1 &&& JOYPAD_SELECT_BUTTON_KEYS = 0 then
      let fa := if j.b then f1 &&& (255 ^^^ (1 <<< 1)) else f1
      let fb := if j.a then fa &&& (255 ^^^ (1 <<< 0)) else fa
      let fc := if j.select then fb &&& (255 ^^^ (1 <<< 2)) else fb
      if j.start then fc &&& (255 ^^^ (1 <<< 3)) else fc
    else f1
  { j with flags := f2 }

/-- sound.rs:14 `struct Sound` (register fields routed by mem.rs; the
`wave_ram` array is commented out in mem.rs's port decode and the remaining
sound fields are not reachable through the memory map). -/
structure Sound where
  nr10 : Nat
  nr11 : Nat
  nr12 : Nat
  nr13 : Nat
  nr14 : Nat
  nr21 : Nat
  nr22 : Nat
  nr23 : Nat
  nr24 : Nat
  nr30 : Nat
  nr31 : Nat
  nr32 : Nat
  nr33 : Nat
  nr34 : Nat
  nr41 : Nat
  nr42 : Nat
  nr43 : Nat
  nr44 : Nat
  nr50 : Nat
  nr51 : Nat
  nr52 : Nat
deriving Repr, DecidableEq

/-- All-zero sound registers (`Sound::new` zeroes every register field). -/
def Sound.new : Sound :=
  ⟨0, 0, 0, 0, 0, 0, 0, 0, 0, 0, 0, 0, 0, 0, 0, 0, 0, 0, 0, 0, 0⟩

/-- lcd.rs:7 `struct Lcd` (the PPU timing state machine's registers plus its
internal sub-scanline cycle counter). -/
structure Lcd where
  ctl : Nat
  stat : Nat
  scy : Nat
  scx : Nat
  ly : Nat
  lyc : Nat
  wy : Nat
  wx : Nat
  bgp : Nat
  obp0 : Nat
  obp1 : Nat
  dma : Nat
  cycles : Nat
deriving Repr, DecidableEq

/-- lcd.rs:63 `Lcd::new` (`Default::default()`, all fields zero). -/
def Lcd.new : Lcd := ⟨0, 0, 0, 0, 0, 0, 0, 0, 0, 0, 0, 0, 0⟩

/-- timer.rs:7 `struct Timer`. -/
structure Timer where
  div : Nat
  tima : Nat
  tma : Nat
  tac : Nat
  last_tick : Nat
  last_div_tick : Nat
deriving Repr, DecidableEq

/-- timer.rs:33 `Timer::new` (`Default::default()`, all fields zero). -/
def Timer.new : Timer := ⟨0, 0, 0, 0, 0, 0⟩

/-- mem.rs:9 `struct MemoryMap`.  The `Rc<RefCell<..>>` peripherals are
modelled as owned fields (single-threaded interior mutability). -/
structure MemoryMap where
  rom : Nat → Nat
  vram : Nat → Nat
  wram : Nat → Nat
  hram : Nat → Nat
  iobuf : Nat → Nat
  oam : Nat → Nat
  interrupt_enable : Nat
  interrupt_master_enable : Bool
  interrupt_flag : Nat
  lcd : Lcd
  timer : Timer
  joypad : Joypad
  sound : Sound

namespace MemoryMap

/-- The pure value returned by mem.rs:102 `handle_addr` for a read
(`write == false`): no branch guarded by `if write` runs, so only the
returned byte matters.  Split out so that `perform_dma`'s internal reads
(which are reads, hence cannot recurse into `perform_dma` again) can be
expressed without mutual recursion.  Each branch is the value the
corresponding `handle_addr`/`handle_ioport` branch returns when every
`if write` guard is skipped (`read_fst` and `handle_ioport_read_fst` below
prove a read leaves the map itself unchanged). -/
def handle_addr_read (mm : MemoryMap) (addr : Nat) : Nat :=
  if addr ≤ 0x3fff then mm.rom addr
  else if addr ≤ 0x7fff then mm.rom addr
  else if addr ≤ 0x9fff then mm.vram (addr - 0x8000)
  else if addr < 0xc000 then 0
  else if addr ≤ 0xdfff then mm.wram (addr - 0xc000)
  else if addr ≤ 0xfdff then mm.wram (addr - 0xe000)
  else if addr ≤ 0xfe9f then mm.oam (addr - 0xfe00)
  else if addr ≤ 0xfeff then 0
  else if addr ≤ 0xff7f then
    match addr with
    | 0xff00 => mm.joypad.flags
    | 0xff01 => 0
    | 0xff02 => 0
    | 0xff04 => mm.timer.div
    | 0xff05 => mm.timer.tima
    | 0xff06 => mm.timer.tma
    | 0xff07 => mm.timer.tac
    | 0xff10 => mm.sound.nr10
    | 0xff11 => mm.sound.nr11
    | 0xff12 => mm.sound.nr12
    | 0xff13 => mm.sound.nr13
    | 0xff14 => mm.sound.nr14
    | 0xff16 => mm.sound.nr21
    | 0xff17 => mm.sound.nr22
    | 0xff18 => mm.sound.nr23
    | 0xff19 => mm.sound.nr24
    | 0xff1a => mm.sound.nr30
    | 0xff1b => mm.sound.nr31
    | 0xff1c => mm.sound.nr32
    | 0xff1d => mm.sound.nr33
    | 0xff1e => mm.sound.nr34
    | 0xff20 => mm.sound.nr41
    | 0xff21 => mm.sound.nr42
    | 0xff22 => mm.sound.nr43
    | 0xff23 => mm.sound.nr44
    | 0xff24 => mm.sound.nr50
    | 0xff25 => mm.sound.nr51
    | 0xff26 => mm.sound.nr52
    | 0xff40 => mm.lcd.ctl
    | 0xff41 => mm.lcd.stat
    | 0xff42 => mm.lcd.scy
    | 0xff43 => mm.lcd.scx
    | 0xff44 => mm.lcd.ly
    | 0xff45 => mm.lcd.lyc
    | 0xff46 => 0
    | 0xff47 => mm.lcd.bgp
    | 0xff48 => mm.lcd.obp0
    | 0xff49 => mm.lcd.obp1
    | 0xff4a => mm.lcd.wy
    | 0xff4b => mm.lcd.wx
    | 0xff0f => mm.interrupt_flag
    | _ => 0
  else if addr ≤ 0xfffe then mm.hram (addr - 0xff80)
  else if addr = 0xffff then mm.interrupt_enable
  else 0

/-- mem.rs:26 `perform_dma`: copies 0xa0 bytes from `val*0x100` into OAM.
Each loop iteration reads from the pre-copy state (source index `val*0x100+i`
can only alias OAM at the same index `i`, which is written after it is
read), so the whole copy is expressed over the original `mm`. -/
def perform_dma (mm : MemoryMap) (val : Nat) : MemoryMap :=
  { mm with oam := fun i =>
      if i < 0xa0 then handle_addr_read mm (val * 0x100 + i) else mm.oam i }

/-- mem.rs:37 `handle_ioport` (both read and write paths). -/
def handle_ioport (mm : MemoryMap) (addr : Nat) (write : Bool) (val : Nat) :
    MemoryMap × Nat :=
  match addr with
  | 0xff00 =>
    let j := if write then (Joypad.set_flags { mm.joypad with flags := val })
             else mm.joypad
    ({ mm with joypad := j }, j.flags)
  | 0xff01 => (mm, 0)
  | 0xff02 => (mm, 0)
  | 0xff04 =>
    let t := if write then { mm.timer with div := val } else mm.timer
    ({ mm with timer := t }, t.div)
  | 0xff05 =>
    let t := if write then { mm.timer with tima := val } else mm.timer
    ({ mm with timer := t }, t.tima)
  | 0xff06 =>
    let t := if write then { mm.timer with tma := val } else mm.timer
    ({ mm with timer := t }, t.tma)
  | 0xff07 =>
    let t := if write then { mm.timer with tac := val } else mm.timer
    ({ mm with timer := t }, t.tac)
  | 0xff10 =>
    let s := if write then { mm.sound with nr10 := val } else mm.sound
    ({ mm with sound := s }, s.nr10)
  | 0xff11 =>
    let s := if write then { mm.sound with nr11 := val } else mm.sound
    ({ mm with sound := s }, s.nr11)
  | 0xff12 =>
    let s := if write then { mm.sound with nr12 := val } else mm.sound
    ({ mm with sound := s }, s.nr12)
  | 0xff13 =>
    let s := if write then { mm.sound with nr13 := val } else mm.sound
    ({ mm with sound := s }, s.nr13)
  | 0xff14 =>
    let s := if write then { mm.sound with nr14 := val } else mm.sound
    ({ mm with sound := s }, s.nr14)
  | 0xff16 =>
    let s := if write then { mm.sound with nr21 := val } else mm.sound
    ({ mm with sound := s }, s.nr21)
  | 0xff17 =>
    let s := if write then { mm.sound with nr22 := val } else mm.sound
    ({ mm with sound := s }, s.nr22)
  | 0xff18 =>
    let s := if write then { mm.sound with nr23 := val } else mm.sound
    ({ mm with sound := s }, s.nr23)
  | 0xff19 =>
    let s := if write then { mm.sound with nr24 := val } else mm.sound
    ({ mm with sound := s }, s.nr24)
  | 0xff1a =>
    let s := if write then { mm.sound with nr30 := val } else mm.sound
    ({ mm with sound := s }, s.nr30)
  | 0xff1b =>
    let s := if write then { mm.sound with nr31 := val } else mm.sound
    ({ mm with sound := s }, s.nr31)
  | 0xff1c =>
    let s := if write then { mm.sound with nr32 := val } else mm.sound
    ({ mm with sound := s }, s.nr32)
  | 0xff1d =>
    let s := if write then { mm.sound with nr33 := val } else mm.sound
    ({ mm with sound := s }, s.nr33)
  | 0xff1e =>
    let s := if write then { mm.sound with nr34 := val } else mm.sound
    ({ mm with sound := s }, s.nr34)
  | 0xff20 =>
    let s := if write then { mm.sound with nr41 := val } else mm.sound
    ({ mm with sound := s }, s.nr41)
  | 0xff21 =>
    let s := if write then { mm.sound with nr42 := val } else mm.sound
    ({ mm with sound := s }, s.nr42)
  | 0xff22 =>
    let s := if write then { mm.sound with nr43 := val } else mm.sound
    ({ mm with sound := s }, s.nr43)
  | 0xff23 =>
    let s := if write then { mm.sound with nr44 := val } else mm.sound
    ({ mm with sound := s }, s.nr44)
  | 0xff24 =>
    let s := if write then { mm.sound with nr50 := val } else mm.sound
    ({ mm with sound := s }, s.nr50)
  | 0xff25 =>
    let s := if write then { mm.sound with nr51 := val } else mm.sound
    ({ mm with sound := s }, s.nr51)
  | 0xff26 =>
    let s := if write then { mm.sound with nr52 := val } else mm.sound
    ({ mm with sound := s }, s.nr52)
  | 0xff40 =>
    let d := if write then { mm.lcd with ctl := val } else mm.lcd
    ({ mm with lcd := d }, d.ctl)
  | 0xff41 =>
    let d := if write then { mm.lcd with stat := val } else mm.lcd
    ({ mm with lcd := d }, d.stat)
  | 0xff42 =>
    let d := if write then { mm.lcd with scy := val } else mm.lcd
    ({ mm with lcd := d }, d.scy)
  | 0xff43 =>
    let d := if write then { mm.lcd with scx := val } else mm.lcd
    ({ mm with lcd := d }, d.scx)
  | 0xff44 =>
    let d := if write then { mm.lcd with ly := val } else mm.lcd
    ({ mm with lcd := d }, d.ly)
  | 0xff45 =>
    let d := if write then { mm.lcd with lyc := val } else mm.lcd
    ({ mm with lcd := d }, d.lyc)
  | 0xff46 =>
    (if write then perform_dma mm val else mm, 0)
  | 0xff47 =>
    let d := if write then { mm.lcd with bgp := val } else mm.lcd
    ({ mm with lcd := d }, d.bgp)
  | 0xff48 =>
    let d := if write then { mm.lcd with obp0 := val } else mm.lcd
    ({ mm with lcd := d }, d.obp0)
  | 0xff49 =>
    let d := if write then { mm.lcd with obp1 := val } else mm.lcd
    ({ mm with lcd := d }, d.obp1)
  | 0xff4a =>
    let d := if write then { mm.lcd with wy := val } else mm.lcd
    ({ mm with lcd := d }, d.wy)
  | 0xff4b =>
    let d := if write then { mm.lcd with wx := val } else mm.lcd
    ({ mm with lcd := d }, d.wx)
  | 0xff0f =>
    let v := if write then val else mm.interrupt_flag
    ({ mm with interrupt_flag := v }, v)
  | 0xffff =>
    let v := if write then val else mm.interrupt_enable
    ({ mm with interrupt_enable := v }, v)
  | _ => (mm, 0)

/-- mem.rs:102 `handle_addr`: routes a 16-bit address to its region.  The
range arms are translated in source order; the Rust `match` is over `u16`,
so the final catch-all also absorbs the uncovered `0xa000 ... 0xbfff` hole
(reads 0, writes ignored). -/
def handle_addr (mm : MemoryMap) (addr : Nat) (write : Bool) (val : Nat) :
    MemoryMap × Nat :=
  if addr ≤ 0x3fff then
    (mm, mm.rom addr)
  else if addr ≤ 0x7fff then
    (mm, mm.rom addr)
  else if addr ≤ 0x9fff then
    let v := if write then upd mm.vram (addr - 0x8000) val else mm.vram
    ({ mm with vram := v }, v (addr - 0x8000))
  else if addr < 0xc000 then
    (mm, 0)
  else if addr ≤ 0xdfff then
    let w := if write then upd mm.wram (addr - 0xc000) val else mm.wram
    ({ mm with wram := w }, w (addr - 0xc000))
  else if addr ≤ 0xfdff then
    let w := if write then upd mm.wram (addr - 0xe000) val else mm.wram
    ({ mm with wram := w }, w (addr - 0xe000))
  else if addr ≤ 0xfe9f then
    let o := if write then upd mm.oam (addr - 0xfe00) val else mm.oam
    ({ mm with oam := o }, o (addr - 0xfe00))
  else if addr ≤ 0xfeff then
    (mm, 0)
  else if addr ≤ 0xff7f then
    handle_ioport mm addr write val
  else if addr ≤ 0xfffe then
    let h := if write then upd mm.hram (addr - 0xff80) val else mm.hram
    ({ mm with hram := h }, h (addr - 0xff80))
  else if addr = 0xffff then
    let v := if write then val else mm.interrupt_enable
    ({ mm with interrupt_enable := v }, v)
  else (mm, 0)

/-- mem.rs:240 `write`. -/
def write (mm : MemoryMap) (addr : Nat) (val : Nat) : MemoryMap :=
  (handle_addr mm addr true val).1

/-- mem.rs:244 `read` (takes `&mut self` in the source, hence returns the
possibly-updated map together with the byte). -/
def read (mm : MemoryMap) (addr : Nat) : MemoryMap × Nat :=
  handle_addr mm addr false 0

/-- mem.rs:248 `di`. -/
def di (mm : MemoryMap) : MemoryMap :=
  { mm with interrupt_master_enable := false }

/-- mem.rs:252 `ei`. -/
def ei (mm : MemoryMap) : MemoryMap :=
  { mm with interrupt_master_enable := true }

/-- mem.rs:256 `interrupt_triggered`: returns whether the given source is
serviced, clearing IME and the source's IF bit when it is.  `!interrupt` on
`u8` is modelled as `255 ^^^ interrupt`. -/
def interrupt_triggered (mm : MemoryMap) (int : Nat) : MemoryMap × Bool :=
  if !mm.interrupt_master_enable then (mm, false)
  else if mm.interrupt_enable &&& int > 0 ∧ mm.interrupt_flag &&& int > 0 then
    ({ mm with interrupt_master_enable := false,
               interrupt_flag := mm.interrupt_flag &&& (255 ^^^ int) }, true)
  else (mm, false)

end MemoryMap


/-- lcd.rs:32 `LCD_STATUS_LY_COINCIDENCE_INTERRUPT`. -/
def LCD_STATUS_LY_COINCIDENCE_INTERRUPT : Nat := 1 <<< 6

/-- lcd.rs:33 `LCD_STATUS_MODE_2_OAM_INTERRUPT`. -/
def LCD_STATUS_MODE_2_OAM_INTERRUPT : Nat := 1 <<< 5

/-- lcd.rs:34 `LCD_STATUS_MODE_1_VBLANK_INTERRUPT`. -/
def LCD_STATUS_MODE_1_VBLANK_INTERRUPT : Nat := 1 <<< 4

/-- lcd.rs:35 `LCD_STATUS_MODE_0_HBLANK_INTERRUPT`. -/
def LCD_STATUS_MODE_0_HBLANK_INTERRUPT : Nat := 1 <<< 3

/-- lcd.rs:37 `LCD_STATUS_MODE` (low two bits of STAT). -/
def LCD_STATUS_MODE : Nat := 1 <<< 1 ||| 1 <<< 0

/-- lcd.rs:68 `Lcd::interrupt_enabled` (its `mm` parameter is unused in the
source). -/
def Lcd.interrupt_enabled (l : Lcd) (int : Nat) : Bool :=
  decide (l.stat &&& int > 0)

/-- lcd.rs:273 `Lcd::run`: the PPU timing state machine.  Advances the
internal cycle counter and performs at most one mode transition per call,
returning the updated Lcd, the updated memory map (STAT/VBlank interrupt
raising) and the `vblank` flag.  The `pixels` buffer and the `draw` call on
an LY change (lcd.rs:340-343) touch only the external framebuffer (reads of
`mm` are pure, see `handle_ioport_read_fst`), so they do not appear in the
modelled state.  `!3` on `u8` is modelled as `255 ^^^ 3`.  The `_` arm of
the source `match` panics; it is unreachable (`stat &&& 3 < 4`) and modelled
as the identity. -/
def Lcd.run (l : Lcd) (mm : MemoryMap) (cycles : Nat) :
    Lcd × MemoryMap × Bool :=
  let l := { l with cycles := l.cycles + cycles }
  match l.stat &&& LCD_STATUS_MODE with
  | 0 =>
    if l.cycles > 201 then
      let l := { l with cycles := l.cycles - 201,
                        stat := (l.stat &&& (255 ^^^ 3)) ||| 2 }
      let mm :=
        if l.interrupt_enabled LCD_STATUS_MODE_2_OAM_INTERRUPT then
          { mm with interrupt_flag := mm.interrupt_flag ||| INTERRUPT_LCD_STAT }
        else mm
      (l, mm, false)
    else (l, mm, false)
  | 2 =>
    if l.cycles > 77 then
      ({ l with cycles := l.cycles - 77,
                stat := (l.stat &&& (255 ^^^ 3)) ||| 3 }, mm, false)
    else (l, mm, false)
  | 3 =>
    if l.cycles > 169 then
      let l := { l with cycles := l.cycles - 169,
                        stat := l.stat &&& (255 ^^^ 3),
                        ly := u8succ l.ly }
      let mm :=
        if l.interrupt_enabled LCD_STATUS_LY_COINCIDENCE_INTERRUPT
            && decide (l.ly = l.lyc) then
          { mm with interrupt_flag := mm.interrupt_flag ||| INTERRUPT_LCD_STAT }
        else mm
      if l.ly ≥ 144 then
        let mm :=
          if l.interrupt_enabled LCD_STATUS_MODE_1_VBLANK_INTERRUPT then
            { mm with interrupt_flag := mm.interrupt_flag ||| INTERRUPT_LCD_STAT }
          else mm
        let mm :=
          if mm.interrupt_master_enable then
            { mm with interrupt_flag := mm.interrupt_flag ||| INTERRUPT_VBLANK }
          else mm
        ({ l with stat := l.stat ||| 1 }, mm, true)
      else
        let mm :=
          if l.interrupt_enabled LCD_STATUS_MODE_0_HBLANK_INTERRUPT then
            { mm with interrupt_flag := mm.interrupt_flag ||| INTERRUPT_LCD_STAT }
          else mm
        (l, mm, false)
    else (l, mm, false)
  | 1 =>
    if l.cycles > 456 then
      let l := { l with cycles := l.cycles - 456, ly := u8succ l.ly }
      let mm :=
        if l.interrupt_enabled LCD_STATUS_LY_COINCIDENCE_INTERRUPT
            && decide (l.ly = l.lyc) then
          { mm with interrupt_flag := mm.interrupt_flag ||| INTERRUPT_LCD_STAT }
        else mm
      if l.ly = 0 then
        let l := { l with stat := l.stat &&& (255 ^^^ 3) }
        let mm :=
          if l.interrupt_enabled LCD_STATUS_MODE_0_HBLANK_INTERRUPT then
            { mm with interrupt_flag := mm.interrupt_flag ||| INTERRUPT_LCD_STAT }
          else mm
        (l, mm, false)
      else (l, mm, false)
    else (l, mm, false)
  | _ => (l, mm, false)

/-- timer.rs:16 `TIMER_TAC_TIMER_STOP`. -/
def TIMER_TAC_TIMER_STOP : Nat := 1 <<< 2

/-- timer.rs:17 `TIMER_TAC_INPUT_CLOCK_SELECT`. -/
def TIMER_TAC_INPUT_CLOCK_SELECT : Nat := 1 <<< 1 ||| 1 <<< 0

/-- timer.rs:38 `Timer::run`.  Returns early when TAC's enable bit is clear;
otherwise advances the TIMA accumulator by the selected clock (note: the
source maps clock code 3 to 25 cycles) and then the DIV accumulator.  The
`_` arm of the source `match` panics; it is unreachable (`tac &&& 3 < 4`)
and modelled as 0. -/
def Timer.run (t : Timer) (mm : MemoryMap) (cycles : Nat) :
    Timer × MemoryMap :=
  if t.tac &&& TIMER_TAC_TIMER_STOP = 0 then (t, mm)
  else
    let cycles_per_tick :=
      match t.tac &&& TIMER_TAC_INPUT_CLOCK_SELECT with
      | 0 => 1024
      | 1 => 16
      | 2 => 64
      | 3 => 25
      | _ => 0
    let t := { t with last_tick := t.last_tick + cycles }
    let (t, mm) :=
      if t.last_tick ≥ cycles_per_tick then
        let t := { t with last_tick := t.last_tick - cycles_per_tick,
                          tima := u8succ t.tima }
        if t.tima = 0 then
          let t := { t with tima := t.tma }
          let mm :=
            if mm.interrupt_master_enable then
              { mm with interrupt_flag := mm.interrupt_flag ||| INTERRUPT_TIMER }
            else mm
          (t, mm)
        else (t, mm)
      else (t, mm)
    let t := { t with last_div_tick := t.last_div_tick + cycles }
    if t.last_div_tick ≥ 256 then
      ({ t with last_div_tick := t.last_div_tick - 256, div := u8succ t.div }, mm)
    else (t, mm)

/-- cpu.rs:13 `struct Cpu`. -/
structure Cpu where
  a : Nat
  f : Nat
  b : Nat
  c : Nat
  d : Nat
  e : Nat
  h : Nat
  l : Nat
  pc : Nat
  sp : Nat
  cycles : Nat
  tracing : Bool
  halt : Bool
deriving Repr, DecidableEq

/-- cpu.rs:64 `Cpu::new` (post-boot register values). -/
def Cpu.new : Cpu :=
  { a := 0x01, f := 0xb0, b := 0x00, c := 0x13, d := 0x00, e := 0xd8,
    h := 0x00, l := 0x00, pc := 0x100, sp := 0xfffe, cycles := 0,
    tracing := false, halt := false }

/-- cpu.rs:82 `af`. -/
def Cpu.af (c : Cpu) : Nat := (c.a <<< 8) ||| c.f

/-- cpu.rs:85 `set_af`: the low byte is masked with 0xf0 ("the bottom four
bits of f are always 0"). -/
def Cpu.set_af (c : Cpu) (v : Nat) : Cpu :=
  { c with a := (v >>> 8) &&& 255, f := (v &&& 0xff) &&& 0xf0 }

/-- cpu.rs:90 `bc`. -/
def Cpu.bc (c : Cpu) : Nat := (c.b <<< 8) ||| c.c

/-- cpu.rs:93 `set_bc`. -/
def Cpu.set_bc (c : Cpu) (v : Nat) : Cpu :=
  { c with b := (v >>> 8) &&& 255, c := v &&& 0xff }

/-- cpu.rs:97 `de`. -/
def Cpu.de (c : Cpu) : Nat := (c.d <<< 8) ||| c.e

/-- cpu.rs:100 `set_de`. -/
def Cpu.set_de (c : Cpu) (v : Nat) : Cpu :=
  { c with d := (v >>> 8) &&& 255, e := v &&& 0xff }

/-- cpu.rs:104 `hl`. -/
def Cpu.hl (c : Cpu) : Nat := (c.h <<< 8) ||| c.l

/-- cpu.rs:107 `set_hl`. -/
def Cpu.set_hl (c : Cpu) (v : Nat) : Cpu :=
  { c with h := (v >>> 8) &&& 255, l := v &&& 0xff }

/-- cpu.rs:58-61: flag bit masks. -/
def FLAG_ZERO : Nat := 0b10000000

/-- cpu.rs:59 `FLAG_SUBTRACT`. -/
def FLAG_SUBTRACT : Nat := 0b01000000

/-- cpu.rs:60 `FLAG_HALF_CARRY`. -/
def FLAG_HALF_CARRY : Nat := 0b00100000

/-- cpu.rs:61 `FLAG_CARRY`. -/
def FLAG_CARRY : Nat := 0b00010000

/-- cpu.rs:123 `set_zero`. -/
def Cpu.set_zero (c : Cpu) (val : Bool) : Cpu :=
  if val then { c with f := c.f ||| FLAG_ZERO }
  else { c with f := c.f &&& (255 ^^^ FLAG_ZERO) }

/-- cpu.rs:130 `set_subtract`. -/
def Cpu.set_subtract (c : Cpu) (val : Bool) : Cpu :=
  if val then { c with f := c.f ||| FLAG_SUBTRACT }
  else { c with f := c.f &&& (255 ^^^ FLAG_SUBTRACT) }

/-- cpu.rs:137 `set_half_carry`. -/
def Cpu.set_half_carry (c : Cpu) (val : Bool) : Cpu :=
  if val then { c with f := c.f ||| FLAG_HALF_CARRY }
  else { c with f := c.f &&& (255 ^^^ FLAG_HALF_CARRY) }

/-- cpu.rs:144 `set_carry`. -/
def Cpu.set_carry (c : Cpu) (val : Bool) : Cpu :=
  if val then { c with f := c.f ||| FLAG_CARRY }
  else { c with f := c.f &&& (255 ^^^ FLAG_CARRY) }

/-- The primitive mutations of the `f` register.  A search of cpu.rs shows
that `self.f` is assigned only at cpu.rs:87-88 (`set_af`, used by `pop af`
at cpu.rs:2405-2408 and by `Cpu::new` initialisation via the literal 0xb0)
and at cpu.rs:125-148 (`set_zero`/`set_subtract`/`set_half_carry`/
`set_carry`, used by every arithmetic/rotate instruction); interrupt
servicing (cpu.rs:704-732) never touches `f`.  Every reachable `f` value is
therefore obtained from `Cpu.new.f` by a finite sequence of these
mutations. -/
inductive FMut where
  | setAF (v : Nat)
  | setZero (b : Bool)
  | setSubtract (b : Bool)
  | setHalfCarry (b : Bool)
  | setCarry (b : Bool)

/-- The effect of one primitive `f` mutation on the `f` byte, read off from
`Cpu.set_af`, `Cpu.set_zero`, `Cpu.set_subtract`, `Cpu.set_half_carry` and
`Cpu.set_carry`. -/
def applyFMut (f : Nat) : FMut → Nat
  | .setAF v => (v &&& 0xff) &&& 0xf0
  | .setZero b => if b then f ||| FLAG_ZERO else f &&& (255 ^^^ FLAG_ZERO)
  | .setSubtract b =>
      if b then f ||| FLAG_SUBTRACT else f &&& (255 ^^^ FLAG_SUBTRACT)
  | .setHalfCarry b =>
      if b then f ||| FLAG_HALF_CARRY else f &&& (255 ^^^ FLAG_HALF_CARRY)
  | .setCarry b => if b then f ||| FLAG_CARRY else f &&& (255 ^^^ FLAG_CARRY)

/-- cpu.rs:379 `stack_write_u16`: stores the high byte at `sp-1`, the low
byte at `sp-2`, then decrements `sp` by 2. -/
def Cpu.stack_write_u16 (c : Cpu) (mm : MemoryMap) (addr : Nat) :
    Cpu × MemoryMap :=
  let mm := MemoryMap.write mm (u16sub c.sp 1) ((addr >>> 8) &&& 255)
  let mm := MemoryMap.write mm (u16sub c.sp 2) (addr &&& 0xff)
  ({ c with sp := u16sub c.sp 2 }, mm)

/-- cpu.rs:385 `stack_read_u16`: reads the low byte at `sp`, the high byte
at `sp+1`, then increments `sp` by 2. -/
def Cpu.stack_read_u16 (c : Cpu) (mm : MemoryMap) :
    Cpu × MemoryMap × Nat :=
  let p1 := MemoryMap.read mm c.sp
  let p2 := MemoryMap.read p1.1 (u16add c.sp 1)
  ({ c with sp := u16add c.sp 2 }, p2.1, (p2.2 <<< 8) ||| p1.2)

/-- cpu.rs:704 `service_interrupt`: clears `halt`, pushes `pc`, jumps to the
vector.  It does not touch the cycle counter. -/
def Cpu.service_interrupt (c : Cpu) (mm : MemoryMap) (addr : Nat) :
    Cpu × MemoryMap :=
  let c := { c with halt := false }
  let r := Cpu.stack_write_u16 c mm c.pc
  ({ r.1 with pc := addr }, r.2)

/-- cpu.rs:711 `service_interrupts`: checks the five sources in priority
order through `MemoryMap.interrupt_triggered` (which clears IME on the first
hit, so at most one source is serviced per check). -/
def Cpu.service_interrupts (c : Cpu) (mm : MemoryMap) : Cpu × MemoryMap :=
  let q1 := MemoryMap.interrupt_triggered mm INTERRUPT_VBLANK
  let r1 := if q1.2 then Cpu.service_interrupt c q1.1 0x40 else (c, q1.1)
  let q2 := MemoryMap.interrupt_triggered r1.2 INTERRUPT_LCD_STAT
  let r2 := if q2.2 then Cpu.service_interrupt r1.1 q2.1 0x48 else (r1.1, q2.1)
  let q3 := MemoryMap.interrupt_triggered r2.2 INTERRUPT_TIMER
  let r3 := if q3.2 then Cpu.service_interrupt r2.1 q3.1 0x50 else (r2.1, q3.1)
  let q4 := MemoryMap.interrupt_triggered r3.2 INTERRUPT_SERIAL
  let r4 := if q4.2 then Cpu.service_interrupt r3.1 q4.1 0x58 else (r3.1, q4.1)
  let q5 := MemoryMap.interrupt_triggered r4.2 INTERRUPT_JOYPAD
  if q5.2 then Cpu.service_interrupt r4.1 q5.1 0x60 else (r4.1, q5.1)

/-- cpu.rs:736 `Cpu::run` specialised to a state whose fetched opcode
(`mm.read(pc)`, a pure read) is `0xc5` (`push bc`): the halted check
(cpu.rs:740-744), the cpu.rs:2106-2112 arm, the `self.pc = pc` writeback
and the final `service_interrupts` (cpu.rs:2494-2496). -/
def Cpu.run_push_bc (c : Cpu) (mm : MemoryMap) : Cpu × MemoryMap :=
  if c.halt then
    Cpu.service_interrupts { c with cycles := c.cycles + 16 } mm
  else
    let r := Cpu.stack_write_u16 c mm c.bc
    let c1 := { r.1 with cycles := r.1.cycles + 16, pc := u16add c.pc 1 }
    Cpu.service_interrupts c1 r.2

/-- cpu.rs:736 `Cpu::run` specialised to a state whose fetched opcode is
`0xd1` (`pop de`): the halted check, the cpu.rs:2207-2213 arm, the
`self.pc = pc` writeback and the final `service_interrupts`. -/
def Cpu.run_pop_de (c : Cpu) (mm : MemoryMap) : Cpu × MemoryMap :=
  if c.halt then
    Cpu.service_interrupts { c with cycles := c.cycles + 16 } mm
  else
    let r := Cpu.stack_read_u16 c mm
    let c1 := Cpu.set_de r.1 r.2.2
    let c2 := { c1 with cycles := c1.cycles + 12, pc := u16add c.pc 1 }
    Cpu.service_interrupts c2 r.2.1

/-- The memory map of main.rs:165-182 at machine construction, with an
all-zero ROM: every array zeroed, interrupts disabled, peripherals in their
`new` states.  This is the machine-reset memory state used for the PPU
cadence run. -/
def mm0 : MemoryMap :=
  { rom := fun _ => 0, vram := fun _ => 0, wram := fun _ => 0,
    hram := fun _ => 0, iobuf := fun _ => 0, oam := fun _ => 0,
    interrupt_enable := 0, interrupt_master_enable := false,
    interrupt_flag := 0, lcd := Lcd.new, timer := Timer.new,
    joypad := Joypad.new, sound := Sound.new }

/-- One host-loop PPU advance of 4 reported CPU cycles (the smallest cycle
delta any instruction produces), threading the Lcd, the memory map and a
count of `vblank = true` returns. -/
def lcdStep (s : Lcd × MemoryMap × Nat) : Lcd × MemoryMap × Nat :=
  let r := Lcd.run s.1 s.2.1 4
  (r.1, r.2.1, if r.2.2 then s.2.2 + 1 else s.2.2)

/-- `n` PPU advances of 4 cycles each, starting from the reset state
(mode 0, LY = 0, internal counter 0) with the reset memory map. -/
def lcdSim (n : Nat) : Lcd × MemoryMap × Nat :=
  Nat.rec (Lcd.new, mm0, 0) (fun _ s => lcdStep s) n

/-- A port-decode read (`write = false`) leaves the memory map unchanged. -/
theorem handle_ioport_read_fst (mm : MemoryMap) (addr val : Nat) :
    (MemoryMap.handle_ioport mm addr false val).1 = mm := by
  unfold MemoryMap.handle_ioport
  split <;> rfl


/-- The PPU step on the reduced all-`Nat` state (the Lcd plus the count of
`vblank = true` returns): one `Lcd.run` advance of 4 cycles against the
reset memory map `mm0`.  `lcdSim_eq` below proves this agrees with `lcdSim`
(the memory map is invariant along this run). -/
def lstep (p : Lcd × Nat) : Lcd × Nat :=
  let r := Lcd.run p.1 mm0 4
  (r.1, if r.2.2 then p.2 + 1 else p.2)

/-- PPU cadence run, step 150 of the 4-cycle advance from reset. -/
theorem lcdChain_150 : lstep^[150] (Lcd.new, 0) = (⟨0, 0, 0, 0, 1, 0, 0, 0, 0, 0, 0, 0, 153⟩, 0) := by decide

/-- PPU cadence run, step 300 of the 4-cycle advance from reset. -/
theorem lcdChain_300 : lstep^[300] (Lcd.new, 0) = (⟨0, 3, 0, 0, 2, 0, 0, 0, 0, 0, 0, 0, 28⟩, 0) := by
  rw [show (300 : Nat) = 150 + 150 by norm_num, Function.iterate_add_apply,
    lcdChain_150]
  decide

/-- PPU cadence run, step 450 of the 4-cycle advance from reset. -/
theorem lcdChain_450 : lstep^[450] (Lcd.new, 0) = (⟨0, 0, 0, 0, 4, 0, 0, 0, 0, 0, 0, 0, 12⟩, 0) := by
  rw [show (450 : Nat) = 150 + 300 by norm_num, Function.iterate_add_apply,
    lcdChain_300]
  decide

/-- PPU cadence run, step 600 of the 4-cycle advance from reset. -/
theorem lcdChain_600 : lstep^[600] (Lcd.new, 0) = (⟨0, 0, 0, 0, 5, 0, 0, 0, 0, 0, 0, 0, 165⟩, 0) := by
  rw [show (600 : Nat) = 150 + 450 by norm_num, Function.iterate_add_apply,
    lcdChain_450]
  decide

/-- PPU cadence run, step 750 of the 4-cycle advance from reset. -/
theorem lcdChain_750 : lstep^[750] (Lcd.new, 0) = (⟨0, 3, 0, 0, 6, 0, 0, 0, 0, 0, 0, 0, 40⟩, 0) := by
  rw [show (750 : Nat) = 150 + 600 by norm_num, Function.iterate_add_apply,
    lcdChain_600]
  decide

/-- PPU cadence run, step 900 of the 4-cycle advance from reset. -/
theorem lcdChain_900 : lstep^[900] (Lcd.new, 0) = (⟨0, 0, 0, 0, 8, 0, 0, 0, 0, 0, 0, 0, 24⟩, 0) := by
  rw [show (900 : Nat) = 150 + 750 by norm_num, Function.iterate_add_apply,
    lcdChain_750]
  decide

/-- PPU cadence run, step 1050 of the 4-cycle advance from reset. -/
theorem lcdChain_1050 : lstep^[1050] (Lcd.new, 0) = (⟨0, 0, 0, 0, 9, 0, 0, 0, 0, 0, 0, 0, 177⟩, 0) := by
  rw [show (1050 : Nat) = 150 + 900 by norm_num, Function.iterate_add_apply,
    lcdChain_900]
  decide

/-- PPU cadence run, step 1200 of the 4-cycle advance from reset. -/
theorem lcdChain_1200 : lstep^[1200] (Lcd.new, 0) = (⟨0, 3, 0, 0, 10, 0, 0, 0, 0, 0, 0, 0, 52⟩, 0) := by
  rw [show (1200 : Nat) = 150 + 1050 by norm_num, Function.iterate_add_apply,
    lcdChain_1050]
  decide

/-- PPU cadence run, step 1350 of the 4-cycle advance from reset. -/
theorem lcdChain_1350 : lstep^[1350] (Lcd.new, 0) = (⟨0, 0, 0, 0, 12, 0, 0, 0, 0, 0, 0, 0, 36⟩, 0) := by
  rw [show (1350 : Nat) = 150 + 1200 by norm_num, Function.iterate_add_apply,
    lcdChain_1200]
  decide

/-- PPU cadence run, step 1500 of the 4-cycle advance from reset. -/
theorem lcdChain_1500 : lstep^[1500] (Lcd.new, 0) = (⟨0, 0, 0, 0, 13, 0, 0, 0, 0, 0, 0, 0, 189⟩, 0) := by
  rw [show (1500 : Nat) = 150 + 1350 by norm_num, Function.iterate_add_apply,
    lcdChain_1350]
  decide

/-- PPU cadence run, step 1650 of the 4-cycle advance from reset. -/
theorem lcdChain_1650 : lstep^[1650] (Lcd.new, 0) = (⟨0, 3, 0, 0, 14, 0, 0, 0, 0, 0, 0, 0, 64⟩, 0) := by
  rw [show (1650 : Nat) = 150 + 1500 by norm_num, Function.iterate_add_apply,
    lcdChain_1500]
  decide

/-- PPU cadence run, step 1800 of the 4-cycle advance from reset. -/
theorem lcdChain_1800 : lstep^[1800] (Lcd.new, 0) = (⟨0, 0, 0, 0, 16, 0, 0, 0, 0, 0, 0, 0, 48⟩, 0) := by
  rw [show (1800 : Nat) = 150 + 1650 by norm_num, Function.iterate_add_apply,
    lcdChain_1650]
  decide

/-- PPU cadence run, step 1950 of the 4-cycle advance from reset. -/
theorem lcdChain_1950 : lstep^[1950] (Lcd.new, 0) = (⟨0, 0, 0, 0, 17, 0, 0, 0, 0, 0, 0, 0, 201⟩, 0) := by
  rw [show (1950 : Nat) = 150 + 1800 by norm_num, Function.iterate_add_apply,
    lcdChain_1800]
  decide

/-- PPU cadence run, step 2100 of the 4-cycle advance from reset. -/
theorem lcdChain_2100 : lstep^[2100] (Lcd.new, 0) = (⟨0, 3, 0, 0, 18, 0, 0, 0, 0, 0, 0, 0, 76⟩, 0) := by
  rw [show (2100 : Nat) = 150 + 1950 by norm_num, Function.iterate_add_apply,
    lcdChain_1950]
  decide

/-- PPU cadence run, step 2250 of the 4-cycle advance from reset. -/
theorem lcdChain_2250 : lstep^[2250] (Lcd.new, 0) = (⟨0, 0, 0, 0, 20, 0, 0, 0, 0, 0, 0, 0, 60⟩, 0) := by
  rw [show (2250 : Nat) = 150 + 2100 by norm_num, Function.iterate_add_apply,
    lcdChain_2100]
  decide

/-- PPU cadence run, step 2400 of the 4-cycle advance from reset. -/
theorem lcdChain_2400 : lstep^[2400] (Lcd.new, 0) = (⟨0, 2, 0, 0, 21, 0, 0, 0, 0, 0, 0, 0, 12⟩, 0) := by
  rw [show (2400 : Nat) = 150 + 2250 by norm_num, Function.iterate_add_apply,
    lcdChain_2250]
  decide

/-- PPU cadence run, step 2550 of the 4-cycle advance from reset. -/
theorem lcdChain_2550 : lstep^[2550] (Lcd.new, 0) = (⟨0, 3, 0, 0, 22, 0, 0, 0, 0, 0, 0, 0, 88⟩, 0) := by
  rw [show (2550 : Nat) = 150 + 2400 by norm_num, Function.iterate_add_apply,
    lcdChain_2400]
  decide

/-- PPU cadence run, step 2700 of the 4-cycle advance from reset. -/
theorem lcdChain_2700 : lstep^[2700] (Lcd.new, 0) = (⟨0, 0, 0, 0, 24, 0, 0, 0, 0, 0, 0, 0, 72⟩, 0) := by
  rw [show (2700 : Nat) = 150 + 2550 by norm_num, Function.iterate_add_apply,
    lcdChain_2550]
  decide

/-- PPU cadence run, step 2850 of the 4-cycle advance from reset. -/
theorem lcdChain_2850 : lstep^[2850] (Lcd.new, 0) = (⟨0, 2, 0, 0, 25, 0, 0, 0, 0, 0, 0, 0, 24⟩, 0) := by
  rw [show (2850 : Nat) = 150 + 2700 by norm_num, Function.iterate_add_apply,
    lcdChain_2700]
  decide

/-- PPU cadence run, step 3000 of the 4-cycle advance from reset. -/
theorem lcdChain_3000 : lstep^[3000] (Lcd.new, 0) = (⟨0, 3, 0, 0, 26, 0, 0, 0, 0, 0, 0, 0, 100⟩, 0) := by
  rw [show (3000 : Nat) = 150 + 2850 by norm_num, Function.iterate_add_apply,
    lcdChain_2850]
  decide

/-- PPU cadence run, step 3150 of the 4-cycle advance from reset. -/
theorem lcdChain_3150 : lstep^[3150] (Lcd.new, 0) = (⟨0, 0, 0, 0, 28, 0, 0, 0, 0, 0, 0, 0, 84⟩, 0) := by
  rw [show (3150 : Nat) = 150 + 3000 by norm_num, Function.iterate_add_apply,
    lcdChain_3000]
  decide

/-- PPU cadence run, step 3300 of the 4-cycle advance from reset. -/
theorem lcdChain_3300 : lstep^[3300] (Lcd.new, 0) = (⟨0, 2, 0, 0, 29, 0, 0, 0, 0, 0, 0, 0, 36⟩, 0) := by
  rw [show (3300 : Nat) = 150 + 3150 by norm_num, Function.iterate_add_apply,
    lcdChain_3150]
  decide

/-- PPU cadence run, step 3450 of the 4-cycle advance from reset. -/
theorem lcdChain_3450 : lstep^[3450] (Lcd.new, 0) = (⟨0, 3, 0, 0, 30, 0, 0, 0, 0, 0, 0, 0, 112⟩, 0) := by
  rw [show (3450 : Nat) = 150 + 3300 by norm_num, Function.iterate_add_apply,
    lcdChain_3300]
  decide

/-- PPU cadence run, step 3600 of the 4-cycle advance from reset. -/
theorem lcdChain_3600 : lstep^[3600] (Lcd.new, 0) = (⟨0, 0, 0, 0, 32, 0, 0, 0, 0, 0, 0, 0, 96⟩, 0) := by
  rw [show (3600 : Nat) = 150 + 3450 by norm_num, Function.iterate_add_apply,
    lcdChain_3450]
  decide

/-- PPU cadence run, step 3750 of the 4-cycle advance from reset. -/
theorem lcdChain_3750 : lstep^[3750] (Lcd.new, 0) = (⟨0, 2, 0, 0, 33, 0, 0, 0, 0, 0, 0, 0, 48⟩, 0) := by
  rw [show (3750 : Nat) = 150 + 3600 by norm_num, Function.iterate_add_apply,
    lcdChain_3600]
  decide

/-- PPU cadence run, step 3900 of the 4-cycle advance from reset. -/
theorem lcdChain_3900 : lstep^[3900] (Lcd.new, 0) = (⟨0, 3, 0, 0, 34, 0, 0, 0, 0, 0, 0, 0, 124⟩, 0) := by
  rw [show (3900 : Nat) = 150 + 3750 by norm_num, Function.iterate_add_apply,
    lcdChain_3750]
  decide

/-- PPU cadence run, step 4050 of the 4-cycle advance from reset. -/
theorem lcdChain_4050 : lstep^[4050] (Lcd.new, 0) = (⟨0, 0, 0, 0, 36, 0, 0, 0, 0, 0, 0, 0, 108⟩, 0) := by
  rw [show (4050 : Nat) = 150 + 3900 by norm_num, Function.iterate_add_apply,
    lcdChain_3900]
  decide

/-- PPU cadence run, step 4200 of the 4-cycle advance from reset. -/
theorem lcdChain_4200 : lstep^[4200] (Lcd.new, 0) = (⟨0, 2, 0, 0, 37, 0, 0, 0, 0, 0, 0, 0, 60⟩, 0) := by
  rw [show (4200 : Nat) = 150 + 4050 by norm_num, Function.iterate_add_apply,
    lcdChain_4050]
  decide

/-- PPU cadence run, step 4350 of the 4-cycle advance from reset. -/
theorem lcdChain_4350 : lstep^[4350] (Lcd.new, 0) = (⟨0, 3, 0, 0, 38, 0, 0, 0, 0, 0, 0, 0, 136⟩, 0) := by
  rw [show (4350 : Nat) = 150 + 4200 by norm_num, Function.iterate_add_apply,
    lcdChain_4200]
  decide

/-- PPU cadence run, step 4500 of the 4-cycle advance from reset. -/
theorem lcdChain_4500 : lstep^[4500] (Lcd.new, 0) = (⟨0, 0, 0, 0, 40, 0, 0, 0, 0, 0, 0, 0, 120⟩, 0) := by
  rw [show (4500 : Nat) = 150 + 4350 by norm_num, Function.iterate_add_apply,
    lcdChain_4350]
  decide

/-- PPU cadence run, step 4650 of the 4-cycle advance from reset. -/
theorem lcdChain_4650 : lstep^[4650] (Lcd.new, 0) = (⟨0, 2, 0, 0, 41, 0, 0, 0, 0, 0, 0, 0, 72⟩, 0) := by
  rw [show (4650 : Nat) = 150 + 4500 by norm_num, Function.iterate_add_apply,
    lcdChain_4500]
  decide

/-- PPU cadence run, step 4800 of the 4-cycle advance from reset. -/
theorem lcdChain_4800 : lstep^[4800] (Lcd.new, 0) = (⟨0, 3, 0, 0, 42, 0, 0, 0, 0, 0, 0, 0, 148⟩, 0) := by
  rw [show (4800 : Nat) = 150 + 4650 by norm_num, Function.iterate_add_apply,
    lcdChain_4650]
  decide

/-- PPU cadence run, step 4950 of the 4-cycle advance from reset. -/
theorem lcdChain_4950 : lstep^[4950] (Lcd.new, 0) = (⟨0, 0, 0, 0, 44, 0, 0, 0, 0, 0, 0, 0, 132⟩, 0) := by
  rw [show (4950 : Nat) = 150 + 4800 by norm_num, Function.iterate_add_apply,
    lcdChain_4800]
  decide

/-- PPU cadence run, step 5100 of the 4-cycle advance from reset. -/
theorem lcdChain_5100 : lstep^[5100] (Lcd.new, 0) = (⟨0, 3, 0, 0, 45, 0, 0, 0, 0, 0, 0, 0, 7⟩, 0) := by
  rw [show (5100 : Nat) = 150 + 4950 by norm_num, Function.iterate_add_apply,
    lcdChain_4950]
  decide

/-- PPU cadence run, step 5250 of the 4-cycle advance from reset. -/
theorem lcdChain_5250 : lstep^[5250] (Lcd.new, 0) = (⟨0, 3, 0, 0, 46, 0, 0, 0, 0, 0, 0, 0, 160⟩, 0) := by
  rw [show (5250 : Nat) = 150 + 5100 by norm_num, Function.iterate_add_apply,
    lcdChain_5100]
  decide

/-- PPU cadence run, step 5400 of the 4-cycle advance from reset. -/
theorem lcdChain_5400 : lstep^[5400] (Lcd.new, 0) = (⟨0, 0, 0, 0, 48, 0, 0, 0, 0, 0, 0, 0, 144⟩, 0) := by
  rw [show (5400 : Nat) = 150 + 5250 by norm_num, Function.iterate_add_apply,
    lcdChain_5250]
  decide

/-- PPU cadence run, step 5550 of the 4-cycle advance from reset. -/
theorem lcdChain_5550 : lstep^[5550] (Lcd.new, 0) = (⟨0, 3, 0, 0, 49, 0, 0, 0, 0, 0, 0, 0, 19⟩, 0) := by
  rw [show (5550 : Nat) = 150 + 5400 by norm_num, Function.iterate_add_apply,
    lcdChain_5400]
  decide

/-- PPU cadence run, step 5700 of the 4-cycle advance from reset. -/
theorem lcdChain_5700 : lstep^[5700] (Lcd.new, 0) = (⟨0, 0, 0, 0, 51, 0, 0, 0, 0, 0, 0, 0, 3⟩, 0) := by
  rw [show (5700 : Nat) = 150 + 5550 by norm_num, Function.iterate_add_apply,
    lcdChain_5550]
  decide

/-- PPU cadence run, step 5850 of the 4-cycle advance from reset. -/
theorem lcdChain_5850 : lstep^[5850] (Lcd.new, 0) = (⟨0, 0, 0, 0, 52, 0, 0, 0, 0, 0, 0, 0, 156⟩, 0) := by
  rw [show (5850 : Nat) = 150 + 5700 by norm_num, Function.iterate_add_apply,
    lcdChain_5700]
  decide

/-- PPU cadence run, step 6000 of the 4-cycle advance from reset. -/
theorem lcdChain_6000 : lstep^[6000] (Lcd.new, 0) = (⟨0, 3, 0, 0, 53, 0, 0, 0, 0, 0, 0, 0, 31⟩, 0) := by
  rw [show (6000 : Nat) = 150 + 5850 by norm_num, Function.iterate_add_apply,
    lcdChain_5850]
  decide

/-- PPU cadence run, step 6150 of the 4-cycle advance from reset. -/
theorem lcdChain_6150 : lstep^[6150] (Lcd.new, 0) = (⟨0, 0, 0, 0, 55, 0, 0, 0, 0, 0, 0, 0, 15⟩, 0) := by
  rw [show (6150 : Nat) = 150 + 6000 by norm_num, Function.iterate_add_apply,
    lcdChain_6000]
  decide

/-- PPU cadence run, step 6300 of the 4-cycle advance from reset. -/
theorem lcdChain_6300 : lstep^[6300] (Lcd.new, 0) = (⟨0, 0, 0, 0, 56, 0, 0, 0, 0, 0, 0, 0, 168⟩, 0) := by
  rw [show (6300 : Nat) = 150 + 6150 by norm_num, Function.iterate_add_apply,
    lcdChain_6150]
  decide

/-- PPU cadence run, step 6450 of the 4-cycle advance from reset. -/
theorem lcdChain_6450 : lstep^[6450] (Lcd.new, 0) = (⟨0, 3, 0, 0, 57, 0, 0, 0, 0, 0, 0, 0, 43⟩, 0) := by
  rw [show (6450 : Nat) = 150 + 6300 by norm_num, Function.iterate_add_apply,
    lcdChain_6300]
  decide

/-- PPU cadence run, step 6600 of the 4-cycle advance from reset. -/
theorem lcdChain_6600 : lstep^[6600] (Lcd.new, 0) = (⟨0, 0, 0, 0, 59, 0, 0, 0, 0, 0, 0, 0, 27⟩, 0) := by
  rw [show (6600 : Nat) = 150 + 6450 by norm_num, Function.iterate_add_apply,
    lcdChain_6450]
  decide

/-- PPU cadence run, step 6750 of the 4-cycle advance from reset. -/
theorem lcdChain_6750 : lstep^[6750] (Lcd.new, 0) = (⟨0, 0, 0, 0, 60, 0, 0, 0, 0, 0, 0, 0, 180⟩, 0) := by
  rw [show (6750 : Nat) = 150 + 6600 by norm_num, Function.iterate_add_apply,
    lcdChain_6600]
  decide

/-- PPU cadence run, step 6900 of the 4-cycle advance from reset. -/
theorem lcdChain_6900 : lstep^[6900] (Lcd.new, 0) = (⟨0, 3, 0, 0, 61, 0, 0, 0, 0, 0, 0, 0, 55⟩, 0) := by
  rw [show (6900 : Nat) = 150 + 6750 by norm_num, Function.iterate_add_apply,
    lcdChain_6750]
  decide

/-- PPU cadence run, step 7050 of the 4-cycle advance from reset. -/
theorem lcdChain_7050 : lstep^[7050] (Lcd.new, 0) = (⟨0, 0, 0, 0, 63, 0, 0, 0, 0, 0, 0, 0, 39⟩, 0) := by
  rw [show (7050 : Nat) = 150 + 6900 by norm_num, Function.iterate_add_apply,
    lcdChain_6900]
  decide

/-- PPU cadence run, step 7200 of the 4-cycle advance from reset. -/
theorem lcdChain_7200 : lstep^[7200] (Lcd.new, 0) = (⟨0, 0, 0, 0, 64, 0, 0, 0, 0, 0, 0, 0, 192⟩, 0) := by
  rw [show (7200 : Nat) = 150 + 7050 by norm_num, Function.iterate_add_apply,
    lcdChain_7050]
  decide

/-- PPU cadence run, step 7350 of the 4-cycle advance from reset. -/
theorem lcdChain_7350 : lstep^[7350] (Lcd.new, 0) = (⟨0, 3, 0, 0, 65, 0, 0, 0, 0, 0, 0, 0, 67⟩, 0) := by
  rw [show (7350 : Nat) = 150 + 7200 by norm_num, Function.iterate_add_apply,
    lcdChain_7200]
  decide

/-- PPU cadence run, step 7500 of the 4-cycle advance from reset. -/
theorem lcdChain_7500 : lstep^[7500] (Lcd.new, 0) = (⟨0, 0, 0, 0, 67, 0, 0, 0, 0, 0, 0, 0, 51⟩, 0) := by
  rw [show (7500 : Nat) = 150 + 7350 by norm_num, Function.iterate_add_apply,
    lcdChain_7350]
  decide

/-- PPU cadence run, step 7650 of the 4-cycle advance from reset. -/
theorem lcdChain_7650 : lstep^[7650] (Lcd.new, 0) = (⟨0, 2, 0, 0, 68, 0, 0, 0, 0, 0, 0, 0, 3⟩, 0) := by
  rw [show (7650 : Nat) = 150 + 7500 by norm_num, Function.iterate_add_apply,
    lcdChain_7500]
  decide

/-- PPU cadence run, step 7800 of the 4-cycle advance from reset. -/
theorem lcdChain_7800 : lstep^[7800] (Lcd.new, 0) = (⟨0, 3, 0, 0, 69, 0, 0, 0, 0, 0, 0, 0, 79⟩, 0) := by
  rw [show (7800 : Nat) = 150 + 7650 by norm_num, Function.iterate_add_apply,
    lcdChain_7650]
  decide

/-- PPU cadence run, step 7950 of the 4-cycle advance from reset. -/
theorem lcdChain_7950 : lstep^[7950] (Lcd.new, 0) = (⟨0, 0, 0, 0, 71, 0, 0, 0, 0, 0, 0, 0, 63⟩, 0) := by
  rw [show (7950 : Nat) = 150 + 7800 by norm_num, Function.iterate_add_apply,
    lcdChain_7800]
  decide

/-- PPU cadence run, step 8100 of the 4-cycle advance from reset. -/
theorem lcdChain_8100 : lstep^[8100] (Lcd.new, 0) = (⟨0, 2, 0, 0, 72, 0, 0, 0, 0, 0, 0, 0, 15⟩, 0) := by
  rw [show (8100 : Nat) = 150 + 7950 by norm_num, Function.iterate_add_apply,
    lcdChain_7950]
  decide

/-- PPU cadence run, step 8250 of the 4-cycle advance from reset. -/
theorem lcdChain_8250 : lstep^[8250] (Lcd.new, 0) = (⟨0, 3, 0, 0, 73, 0, 0, 0, 0, 0, 0, 0, 91⟩, 0) := by
  rw [show (8250 : Nat) = 150 + 8100 by norm_num, Function.iterate_add_apply,
    lcdChain_8100]
  decide

/-- PPU cadence run, step 8400 of the 4-cycle advance from reset. -/
theorem lcdChain_8400 : lstep^[8400] (Lcd.new, 0) = (⟨0, 0, 0, 0, 75, 0, 0, 0, 0, 0, 0, 0, 75⟩, 0) := by
  rw [show (8400 : Nat) = 150 + 8250 by norm_num, Function.iterate_add_apply,
    lcdChain_8250]
  decide

/-- PPU cadence run, step 8550 of the 4-cycle advance from reset. -/
theorem lcdChain_8550 : lstep^[8550] (Lcd.new, 0) = (⟨0, 2, 0, 0, 76, 0, 0, 0, 0, 0, 0, 0, 27⟩, 0) := by
  rw [show (8550 : Nat) = 150 + 8400 by norm_num, Function.iterate_add_apply,
    lcdChain_8400]
  decide

/-- PPU cadence run, step 8700 of the 4-cycle advance from reset. -/
theorem lcdChain_8700 : lstep^[8700] (Lcd.new, 0) = (⟨0, 3, 0, 0, 77, 0, 0, 0, 0, 0, 0, 0, 103⟩, 0) := by
  rw [show (8700 : Nat) = 150 + 8550 by norm_num, Function.iterate_add_apply,
    lcdChain_8550]
  decide

/-- PPU cadence run, step 8850 of the 4-cycle advance from reset. -/
theorem lcdChain_8850 : lstep^[8850] (Lcd.new, 0) = (⟨0, 0, 0, 0, 79, 0, 0, 0, 0, 0, 0, 0, 87⟩, 0) := by
  rw [show (8850 : Nat) = 150 + 8700 by norm_num, Function.iterate_add_apply,
    lcdChain_8700]
  decide

/-- PPU cadence run, step 9000 of the 4-cycle advance from reset. -/
theorem lcdChain_9000 : lstep^[9000] (Lcd.new, 0) = (⟨0, 2, 0, 0, 80, 0, 0, 0, 0, 0, 0, 0, 39⟩, 0) := by
  rw [show (9000 : Nat) = 150 + 8850 by norm_num, Function.iterate_add_apply,
    lcdChain_8850]
  decide

/-- PPU cadence run, step 9150 of the 4-cycle advance from reset. -/
theorem lcdChain_9150 : lstep^[9150] (Lcd.new, 0) = (⟨0, 3, 0, 0, 81, 0, 0, 0, 0, 0, 0, 0, 115⟩, 0) := by
  rw [show (9150 : Nat) = 150 + 9000 by norm_num, Function.iterate_add_apply,
    lcdChain_9000]
  decide

/-- PPU cadence run, step 9300 of the 4-cycle advance from reset. -/
theorem lcdChain_9300 : lstep^[9300] (Lcd.new, 0) = (⟨0, 0, 0, 0, 83, 0, 0, 0, 0, 0, 0, 0, 99⟩, 0) := by
  rw [show (9300 : Nat) = 150 + 9150 by norm_num, Function.iterate_add_apply,
    lcdChain_9150]
  decide

/-- PPU cadence run, step 9450 of the 4-cycle advance from reset. -/
theorem lcdChain_9450 : lstep^[9450] (Lcd.new, 0) = (⟨0, 2, 0, 0, 84, 0, 0, 0, 0, 0, 0, 0, 51⟩, 0) := by
  rw [show (9450 : Nat) = 150 + 9300 by norm_num, Function.iterate_add_apply,
    lcdChain_9300]
  decide

/-- PPU cadence run, step 9600 of the 4-cycle advance from reset. -/
theorem lcdChain_9600 : lstep^[9600] (Lcd.new, 0) = (⟨0, 3, 0, 0, 85, 0, 0, 0, 0, 0, 0, 0, 127⟩, 0) := by
  rw [show (9600 : Nat) = 150 + 9450 by norm_num, Function.iterate_add_apply,
    lcdChain_9450]
  decide

/-- PPU cadence run, step 9750 of the 4-cycle advance from reset. -/
theorem lcdChain_9750 : lstep^[9750] (Lcd.new, 0) = (⟨0, 0, 0, 0, 87, 0, 0, 0, 0, 0, 0, 0, 111⟩, 0) := by
  rw [show (9750 : Nat) = 150 + 9600 by norm_num, Function.iterate_add_apply,
    lcdChain_9600]
  decide

/-- PPU cadence run, step 9900 of the 4-cycle advance from reset. -/
theorem lcdChain_9900 : lstep^[9900] (Lcd.new, 0) = (⟨0, 2, 0, 0, 88, 0, 0, 0, 0, 0, 0, 0, 63⟩, 0) := by
  rw [show (9900 : Nat) = 150 + 9750 by norm_num, Function.iterate_add_apply,
    lcdChain_9750]
  decide

/-- PPU cadence run, step 10050 of the 4-cycle advance from reset. -/
theorem lcdChain_10050 : lstep^[10050] (Lcd.new, 0) = (⟨0, 3, 0, 0, 89, 0, 0, 0, 0, 0, 0, 0, 139⟩, 0) := by
  rw [show (10050 : Nat) = 150 + 9900 by norm_num, Function.iterate_add_apply,
    lcdChain_9900]
  decide

/-- PPU cadence run, step 10200 of the 4-cycle advance from reset. -/
theorem lcdChain_10200 : lstep^[10200] (Lcd.new, 0) = (⟨0, 0, 0, 0, 91, 0, 0, 0, 0, 0, 0, 0, 123⟩, 0) := by
  rw [show (10200 : Nat) = 150 + 10050 by norm_num, Function.iterate_add_apply,
    lcdChain_10050]
  decide

/-- PPU cadence run, step 10350 of the 4-cycle advance from reset. -/
theorem lcdChain_10350 : lstep^[10350] (Lcd.new, 0) = (⟨0, 2, 0, 0, 92, 0, 0, 0, 0, 0, 0, 0, 75⟩, 0) := by
  rw [show (10350 : Nat) = 150 + 10200 by norm_num, Function.iterate_add_apply,
    lcdChain_10200]
  decide

/-- PPU cadence run, step 10500 of the 4-cycle advance from reset. -/
theorem lcdChain_10500 : lstep^[10500] (Lcd.new, 0) = (⟨0, 3, 0, 0, 93, 0, 0, 0, 0, 0, 0, 0, 151⟩, 0) := by
  rw [show (10500 : Nat) = 150 + 10350 by norm_num, Function.iterate_add_apply,
    lcdChain_10350]
  decide

/-- PPU cadence run, step 10650 of the 4-cycle advance from reset. -/
theorem lcdChain_10650 : lstep^[10650] (Lcd.new, 0) = (⟨0, 0, 0, 0, 95, 0, 0, 0, 0, 0, 0, 0, 135⟩, 0) := by
  rw [show (10650 : Nat) = 150 + 10500 by norm_num, Function.iterate_add_apply,
    lcdChain_10500]
  decide

/-- PPU cadence run, step 10800 of the 4-cycle advance from reset. -/
theorem lcdChain_10800 : lstep^[10800] (Lcd.new, 0) = (⟨0, 3, 0, 0, 96, 0, 0, 0, 0, 0, 0, 0, 10⟩, 0) := by
  rw [show (10800 : Nat) = 150 + 10650 by norm_num, Function.iterate_add_apply,
    lcdChain_10650]
  decide

/-- PPU cadence run, step 10950 of the 4-cycle advance from reset. -/
theorem lcdChain_10950 : lstep^[10950] (Lcd.new, 0) = (⟨0, 3, 0, 0, 97, 0, 0, 0, 0, 0, 0, 0, 163⟩, 0) := by
  rw [show (10950 : Nat) = 150 + 10800 by norm_num, Function.iterate_add_apply,
    lcdChain_10800]
  decide

/-- PPU cadence run, step 11100 of the 4-cycle advance from reset. -/
theorem lcdChain_11100 : lstep^[11100] (Lcd.new, 0) = (⟨0, 0, 0, 0, 99, 0, 0, 0, 0, 0, 0, 0, 147⟩, 0) := by
  rw [show (11100 : Nat) = 150 + 10950 by norm_num, Function.iterate_add_apply,
    lcdChain_10950]
  decide

/-- PPU cadence run, step 11250 of the 4-cycle advance from reset. -/
theorem lcdChain_11250 : lstep^[11250] (Lcd.new, 0) = (⟨0, 3, 0, 0, 100, 0, 0, 0, 0, 0, 0, 0, 22⟩, 0) := by
  rw [show (11250 : Nat) = 150 + 11100 by norm_num, Function.iterate_add_apply,
    lcdChain_11100]
  decide

/-- PPU cadence run, step 11400 of the 4-cycle advance from reset. -/
theorem lcdChain_11400 : lstep^[11400] (Lcd.new, 0) = (⟨0, 0, 0, 0, 102, 0, 0, 0, 0, 0, 0, 0, 6⟩, 0) := by
  rw [show (11400 : Nat) = 150 + 11250 by norm_num, Function.iterate_add_apply,
    lcdChain_11250]
  decide

/-- PPU cadence run, step 11550 of the 4-cycle advance from reset. -/
theorem lcdChain_11550 : lstep^[11550] (Lcd.new, 0) = (⟨0, 0, 0, 0, 103, 0, 0, 0, 0, 0, 0, 0, 159⟩, 0) := by
  rw [show (11550 : Nat) = 150 + 11400 by norm_num, Function.iterate_add_apply,
    lcdChain_11400]
  decide

/-- PPU cadence run, step 11700 of the 4-cycle advance from reset. -/
theorem lcdChain_11700 : lstep^[11700] (Lcd.new, 0) = (⟨0, 3, 0, 0, 104, 0, 0, 0, 0, 0, 0, 0, 34⟩, 0) := by
  rw [show (11700 : Nat) = 150 + 11550 by norm_num, Function.iterate_add_apply,
    lcdChain_11550]
  decide

/-- PPU cadence run, step 11850 of the 4-cycle advance from reset. -/
theorem lcdChain_11850 : lstep^[11850] (Lcd.new, 0) = (⟨0, 0, 0, 0, 106, 0, 0, 0, 0, 0, 0, 0, 18⟩, 0) := by
  rw [show (11850 : Nat) = 150 + 11700 by norm_num, Function.iterate_add_apply,
    lcdChain_11700]
  decide

/-- PPU cadence run, step 12000 of the 4-cycle advance from reset. -/
theorem lcdChain_12000 : lstep^[12000] (Lcd.new, 0) = (⟨0, 0, 0, 0, 107, 0, 0, 0, 0, 0, 0, 0, 171⟩, 0) := by
  rw [show (12000 : Nat) = 150 + 11850 by norm_num, Function.iterate_add_apply,
    lcdChain_11850]
  decide

/-- PPU cadence run, step 12150 of the 4-cycle advance from reset. -/
theorem lcdChain_12150 : lstep^[12150] (Lcd.new, 0) = (⟨0, 3, 0, 0, 108, 0, 0, 0, 0, 0, 0, 0, 46⟩, 0) := by
  rw [show (12150 : Nat) = 150 + 12000 by norm_num, Function.iterate_add_apply,
    lcdChain_12000]
  decide

/-- PPU cadence run, step 12300 of the 4-cycle advance from reset. -/
theorem lcdChain_12300 : lstep^[12300] (Lcd.new, 0) = (⟨0, 0, 0, 0, 110, 0, 0, 0, 0, 0, 0, 0, 30⟩, 0) := by
  rw [show (12300 : Nat) = 150 + 12150 by norm_num, Function.iterate_add_apply,
    lcdChain_12150]
  decide

/-- PPU cadence run, step 12450 of the 4-cycle advance from reset. -/
theorem lcdChain_12450 : lstep^[12450] (Lcd.new, 0) = (⟨0, 0, 0, 0, 111, 0, 0, 0, 0, 0, 0, 0, 183⟩, 0) := by
  rw [show (12450 : Nat) = 150 + 12300 by norm_num, Function.iterate_add_apply,
    lcdChain_12300]
  decide

/-- PPU cadence run, step 12600 of the 4-cycle advance from reset. -/
theorem lcdChain_12600 : lstep^[12600] (Lcd.new, 0) = (⟨0, 3, 0, 0, 112, 0, 0, 0, 0, 0, 0, 0, 58⟩, 0) := by
  rw [show (12600 : Nat) = 150 + 12450 by norm_num, Function.iterate_add_apply,
    lcdChain_12450]
  decide

/-- PPU cadence run, step 12750 of the 4-cycle advance from reset. -/
theorem lcdChain_12750 : lstep^[12750] (Lcd.new, 0) = (⟨0, 0, 0, 0, 114, 0, 0, 0, 0, 0, 0, 0, 42⟩, 0) := by
  rw [show (12750 : Nat) = 150 + 12600 by norm_num, Function.iterate_add_apply,
    lcdChain_12600]
  decide

/-- PPU cadence run, step 12900 of the 4-cycle advance from reset. -/
theorem lcdChain_12900 : lstep^[12900] (Lcd.new, 0) = (⟨0, 0, 0, 0, 115, 0, 0, 0, 0, 0, 0, 0, 195⟩, 0) := by
  rw [show (12900 : Nat) = 150 + 12750 by norm_num, Function.iterate_add_apply,
    lcdChain_12750]
  decide

/-- PPU cadence run, step 13050 of the 4-cycle advance from reset. -/
theorem lcdChain_13050 : lstep^[13050] (Lcd.new, 0) = (⟨0, 3, 0, 0, 116, 0, 0, 0, 0, 0, 0, 0, 70⟩, 0) := by
  rw [show (13050 : Nat) = 150 + 12900 by norm_num, Function.iterate_add_apply,
    lcdChain_12900]
  decide

/-- PPU cadence run, step 13200 of the 4-cycle advance from reset. -/
theorem lcdChain_13200 : lstep^[13200] (Lcd.new, 0) = (⟨0, 0, 0, 0, 118, 0, 0, 0, 0, 0, 0, 0, 54⟩, 0) := by
  rw [show (13200 : Nat) = 150 + 13050 by norm_num, Function.iterate_add_apply,
    lcdChain_13050]
  decide

/-- PPU cadence run, step 13350 of the 4-cycle advance from reset. -/
theorem lcdChain_13350 : lstep^[13350] (Lcd.new, 0) = (⟨0, 2, 0, 0, 119, 0, 0, 0, 0, 0, 0, 0, 6⟩, 0) := by
  rw [show (13350 : Nat) = 150 + 13200 by norm_num, Function.iterate_add_apply,
    lcdChain_13200]
  decide

/-- PPU cadence run, step 13500 of the 4-cycle advance from reset. -/
theorem lcdChain_13500 : lstep^[13500] (Lcd.new, 0) = (⟨0, 3, 0, 0, 120, 0, 0, 0, 0, 0, 0, 0, 82⟩, 0) := by
  rw [show (13500 : Nat) = 150 + 13350 by norm_num, Function.iterate_add_apply,
    lcdChain_13350]
  decide

/-- PPU cadence run, step 13650 of the 4-cycle advance from reset. -/
theorem lcdChain_13650 : lstep^[13650] (Lcd.new, 0) = (⟨0, 0, 0, 0, 122, 0, 0, 0, 0, 0, 0, 0, 66⟩, 0) := by
  rw [show (13650 : Nat) = 150 + 13500 by norm_num, Function.iterate_add_apply,
    lcdChain_13500]
  decide

/-- PPU cadence run, step 13800 of the 4-cycle advance from reset. -/
theorem lcdChain_13800 : lstep^[13800] (Lcd.new, 0) = (⟨0, 2, 0, 0, 123, 0, 0, 0, 0, 0, 0, 0, 18⟩, 0) := by
  rw [show (13800 : Nat) = 150 + 13650 by norm_num, Function.iterate_add_apply,
    lcdChain_13650]
  decide

/-- PPU cadence run, step 13950 of the 4-cycle advance from reset. -/
theorem lcdChain_13950 : lstep^[13950] (Lcd.new, 0) = (⟨0, 3, 0, 0, 124, 0, 0, 0, 0, 0, 0, 0, 94⟩, 0) := by
  rw [show (13950 : Nat) = 150 + 13800 by norm_num, Function.iterate_add_apply,
    lcdChain_13800]
  decide

/-- PPU cadence run, step 14100 of the 4-cycle advance from reset. -/
theorem lcdChain_14100 : lstep^[14100] (Lcd.new, 0) = (⟨0, 0, 0, 0, 126, 0, 0, 0, 0, 0, 0, 0, 78⟩, 0) := by
  rw [show (14100 : Nat) = 150 + 13950 by norm_num, Function.iterate_add_apply,
    lcdChain_13950]
  decide

/-- PPU cadence run, step 14250 of the 4-cycle advance from reset. -/
theorem lcdChain_14250 : lstep^[14250] (Lcd.new, 0) = (⟨0, 2, 0, 0, 127, 0, 0, 0, 0, 0, 0, 0, 30⟩, 0) := by
  rw [show (14250 : Nat) = 150 + 14100 by norm_num, Function.iterate_add_apply,
    lcdChain_14100]
  decide

/-- PPU cadence run, step 14400 of the 4-cycle advance from reset. -/
theorem lcdChain_14400 : lstep^[14400] (Lcd.new, 0) = (⟨0, 3, 0, 0, 128, 0, 0, 0, 0, 0, 0, 0, 106⟩, 0) := by
  rw [show (14400 : Nat) = 150 + 14250 by norm_num, Function.iterate_add_apply,
    lcdChain_14250]
  decide

/-- PPU cadence run, step 14550 of the 4-cycle advance from reset. -/
theorem lcdChain_14550 : lstep^[14550] (Lcd.new, 0) = (⟨0, 0, 0, 0, 130, 0, 0, 0, 0, 0, 0, 0, 90⟩, 0) := by
  rw [show (14550 : Nat) = 150 + 14400 by norm_num, Function.iterate_add_apply,
    lcdChain_14400]
  decide

/-- PPU cadence run, step 14700 of the 4-cycle advance from reset. -/
theorem lcdChain_14700 : lstep^[14700] (Lcd.new, 0) = (⟨0, 2, 0, 0, 131, 0, 0, 0, 0, 0, 0, 0, 42⟩, 0) := by
  rw [show (14700 : Nat) = 150 + 14550 by norm_num, Function.iterate_add_apply,
    lcdChain_14550]
  decide

/-- PPU cadence run, step 14850 of the 4-cycle advance from reset. -/
theorem lcdChain_14850 : lstep^[14850] (Lcd.new, 0) = (⟨0, 3, 0, 0, 132, 0, 0, 0, 0, 0, 0, 0, 118⟩, 0) := by
  rw [show (14850 : Nat) = 150 + 14700 by norm_num, Function.iterate_add_apply,
    lcdChain_14700]
  decide

/-- PPU cadence run, step 15000 of the 4-cycle advance from reset. -/
theorem lcdChain_15000 : lstep^[15000] (Lcd.new, 0) = (⟨0, 0, 0, 0, 134, 0, 0, 0, 0, 0, 0, 0, 102⟩, 0) := by
  rw [show (15000 : Nat) = 150 + 14850 by norm_num, Function.iterate_add_apply,
    lcdChain_14850]
  decide

/-- PPU cadence run, step 15150 of the 4-cycle advance from reset. -/
theorem lcdChain_15150 : lstep^[15150] (Lcd.new, 0) = (⟨0, 2, 0, 0, 135, 0, 0, 0, 0, 0, 0, 0, 54⟩, 0) := by
  rw [show (15150 : Nat) = 150 + 15000 by norm_num, Function.iterate_add_apply,
    lcdChain_15000]
  decide

/-- PPU cadence run, step 15300 of the 4-cycle advance from reset. -/
theorem lcdChain_15300 : lstep^[15300] (Lcd.new, 0) = (⟨0, 3, 0, 0, 136, 0, 0, 0, 0, 0, 0, 0, 130⟩, 0) := by
  rw [show (15300 : Nat) = 150 + 15150 by norm_num, Function.iterate_add_apply,
    lcdChain_15150]
  decide

/-- PPU cadence run, step 15450 of the 4-cycle advance from reset. -/
theorem lcdChain_15450 : lstep^[15450] (Lcd.new, 0) = (⟨0, 0, 0, 0, 138, 0, 0, 0, 0, 0, 0, 0, 114⟩, 0) := by
  rw [show (15450 : Nat) = 150 + 15300 by norm_num, Function.iterate_add_apply,
    lcdChain_15300]
  decide

/-- PPU cadence run, step 15600 of the 4-cycle advance from reset. -/
theorem lcdChain_15600 : lstep^[15600] (Lcd.new, 0) = (⟨0, 2, 0, 0, 139, 0, 0, 0, 0, 0, 0, 0, 66⟩, 0) := by
  rw [show (15600 : Nat) = 150 + 15450 by norm_num, Function.iterate_add_apply,
    lcdChain_15450]
  decide

/-- PPU cadence run, step 15750 of the 4-cycle advance from reset. -/
theorem lcdChain_15750 : lstep^[15750] (Lcd.new, 0) = (⟨0, 3, 0, 0, 140, 0, 0, 0, 0, 0, 0, 0, 142⟩, 0) := by
  rw [show (15750 : Nat) = 150 + 15600 by norm_num, Function.iterate_add_apply,
    lcdChain_15600]
  decide

/-- PPU cadence run, step 15900 of the 4-cycle advance from reset. -/
theorem lcdChain_15900 : lstep^[15900] (Lcd.new, 0) = (⟨0, 0, 0, 0, 142, 0, 0, 0, 0, 0, 0, 0, 126⟩, 0) := by
  rw [show (15900 : Nat) = 150 + 15750 by norm_num, Function.iterate_add_apply,
    lcdChain_15750]
  decide

/-- PPU cadence run, step 16050 of the 4-cycle advance from reset. -/
theorem lcdChain_16050 : lstep^[16050] (Lcd.new, 0) = (⟨0, 3, 0, 0, 143, 0, 0, 0, 0, 0, 0, 0, 1⟩, 0) := by
  rw [show (16050 : Nat) = 150 + 15900 by norm_num, Function.iterate_add_apply,
    lcdChain_15900]
  decide

/-- PPU cadence run, step 16200 of the 4-cycle advance from reset. -/
theorem lcdChain_16200 : lstep^[16200] (Lcd.new, 0) = (⟨0, 1, 0, 0, 144, 0, 0, 0, 0, 0, 0, 0, 432⟩, 1) := by
  rw [show (16200 : Nat) = 150 + 16050 by norm_num, Function.iterate_add_apply,
    lcdChain_16050]
  decide

/-- PPU cadence run, step 16350 of the 4-cycle advance from reset. -/
theorem lcdChain_16350 : lstep^[16350] (Lcd.new, 0) = (⟨0, 1, 0, 0, 146, 0, 0, 0, 0, 0, 0, 0, 120⟩, 1) := by
  rw [show (16350 : Nat) = 150 + 16200 by norm_num, Function.iterate_add_apply,
    lcdChain_16200]
  decide

/-- PPU cadence run, step 16500 of the 4-cycle advance from reset. -/
theorem lcdChain_16500 : lstep^[16500] (Lcd.new, 0) = (⟨0, 1, 0, 0, 147, 0, 0, 0, 0, 0, 0, 0, 264⟩, 1) := by
  rw [show (16500 : Nat) = 150 + 16350 by norm_num, Function.iterate_add_apply,
    lcdChain_16350]
  decide

/-- PPU cadence run, step 16650 of the 4-cycle advance from reset. -/
theorem lcdChain_16650 : lstep^[16650] (Lcd.new, 0) = (⟨0, 1, 0, 0, 148, 0, 0, 0, 0, 0, 0, 0, 408⟩, 1) := by
  rw [show (16650 : Nat) = 150 + 16500 by norm_num, Function.iterate_add_apply,
    lcdChain_16500]
  decide

/-- PPU cadence run, step 16800 of the 4-cycle advance from reset. -/
theorem lcdChain_16800 : lstep^[16800] (Lcd.new, 0) = (⟨0, 1, 0, 0, 150, 0, 0, 0, 0, 0, 0, 0, 96⟩, 1) := by
  rw [show (16800 : Nat) = 150 + 16650 by norm_num, Function.iterate_add_apply,
    lcdChain_16650]
  decide

/-- PPU cadence run, step 16950 of the 4-cycle advance from reset. -/
theorem lcdChain_16950 : lstep^[16950] (Lcd.new, 0) = (⟨0, 1, 0, 0, 151, 0, 0, 0, 0, 0, 0, 0, 240⟩, 1) := by
  rw [show (16950 : Nat) = 150 + 16800 by norm_num, Function.iterate_add_apply,
    lcdChain_16800]
  decide

/-- PPU cadence run, step 17100 of the 4-cycle advance from reset. -/
theorem lcdChain_17100 : lstep^[17100] (Lcd.new, 0) = (⟨0, 1, 0, 0, 152, 0, 0, 0, 0, 0, 0, 0, 384⟩, 1) := by
  rw [show (17100 : Nat) = 150 + 16950 by norm_num, Function.iterate_add_apply,
    lcdChain_16950]
  decide

/-- PPU cadence run, step 17250 of the 4-cycle advance from reset. -/
theorem lcdChain_17250 : lstep^[17250] (Lcd.new, 0) = (⟨0, 1, 0, 0, 154, 0, 0, 0, 0, 0, 0, 0, 72⟩, 1) := by
  rw [show (17250 : Nat) = 150 + 17100 by norm_num, Function.iterate_add_apply,
    lcdChain_17100]
  decide

/-- PPU cadence run, step 17400 of the 4-cycle advance from reset. -/
theorem lcdChain_17400 : lstep^[17400] (Lcd.new, 0) = (⟨0, 1, 0, 0, 155, 0, 0, 0, 0, 0, 0, 0, 216⟩, 1) := by
  rw [show (17400 : Nat) = 150 + 17250 by norm_num, Function.iterate_add_apply,
    lcdChain_17250]
  decide

/-- PPU cadence run, step 17550 of the 4-cycle advance from reset. -/
theorem lcdChain_17550 : lstep^[17550] (Lcd.new, 0) = (⟨0, 1, 0, 0, 156, 0, 0, 0, 0, 0, 0, 0, 360⟩, 1) := by
  rw [show (17550 : Nat) = 150 + 17400 by norm_num, Function.iterate_add_apply,
    lcdChain_17400]
  decide

/-- PPU cadence run, step 17556 of the 4-cycle advance from reset. -/
theorem lcdChain_17556 : lstep^[17556] (Lcd.new, 0) = (⟨0, 1, 0, 0, 156, 0, 0, 0, 0, 0, 0, 0, 384⟩, 1) := by
  rw [show (17556 : Nat) = 6 + 17550 by norm_num, Function.iterate_add_apply,
    lcdChain_17550]
  decide

/-- PPU cadence run, step 17706 of the 4-cycle advance from reset. -/
theorem lcdChain_17706 : lstep^[17706] (Lcd.new, 0) = (⟨0, 1, 0, 0, 158, 0, 0, 0, 0, 0, 0, 0, 72⟩, 1) := by
  rw [show (17706 : Nat) = 150 + 17556 by norm_num, Function.iterate_add_apply,
    lcdChain_17556]
  decide

/-- PPU cadence run, step 17856 of the 4-cycle advance from reset. -/
theorem lcdChain_17856 : lstep^[17856] (Lcd.new, 0) = (⟨0, 1, 0, 0, 159, 0, 0, 0, 0, 0, 0, 0, 216⟩, 1) := by
  rw [show (17856 : Nat) = 150 + 17706 by norm_num, Function.iterate_add_apply,
    lcdChain_17706]
  decide

/-- PPU cadence run, step 18006 of the 4-cycle advance from reset. -/
theorem lcdChain_18006 : lstep^[18006] (Lcd.new, 0) = (⟨0, 1, 0, 0, 160, 0, 0, 0, 0, 0, 0, 0, 360⟩, 1) := by
  rw [show (18006 : Nat) = 150 + 17856 by norm_num, Function.iterate_add_apply,
    lcdChain_17856]
  decide

/-- PPU cadence run, step 18156 of the 4-cycle advance from reset. -/
theorem lcdChain_18156 : lstep^[18156] (Lcd.new, 0) = (⟨0, 1, 0, 0, 162, 0, 0, 0, 0, 0, 0, 0, 48⟩, 1) := by
  rw [show (18156 : Nat) = 150 + 18006 by norm_num, Function.iterate_add_apply,
    lcdChain_18006]
  decide

/-- PPU cadence run, step 18306 of the 4-cycle advance from reset. -/
theorem lcdChain_18306 : lstep^[18306] (Lcd.new, 0) = (⟨0, 1, 0, 0, 163, 0, 0, 0, 0, 0, 0, 0, 192⟩, 1) := by
  rw [show (18306 : Nat) = 150 + 18156 by norm_num, Function.iterate_add_apply,
    lcdChain_18156]
  decide

/-- PPU cadence run, step 18456 of the 4-cycle advance from reset. -/
theorem lcdChain_18456 : lstep^[18456] (Lcd.new, 0) = (⟨0, 1, 0, 0, 164, 0, 0, 0, 0, 0, 0, 0, 336⟩, 1) := by
  rw [show (18456 : Nat) = 150 + 18306 by norm_num, Function.iterate_add_apply,
    lcdChain_18306]
  decide

/-- PPU cadence run, step 18606 of the 4-cycle advance from reset. -/
theorem lcdChain_18606 : lstep^[18606] (Lcd.new, 0) = (⟨0, 1, 0, 0, 166, 0, 0, 0, 0, 0, 0, 0, 24⟩, 1) := by
  rw [show (18606 : Nat) = 150 + 18456 by norm_num, Function.iterate_add_apply,
    lcdChain_18456]
  decide

/-- PPU cadence run, step 18756 of the 4-cycle advance from reset. -/
theorem lcdChain_18756 : lstep^[18756] (Lcd.new, 0) = (⟨0, 1, 0, 0, 167, 0, 0, 0, 0, 0, 0, 0, 168⟩, 1) := by
  rw [show (18756 : Nat) = 150 + 18606 by norm_num, Function.iterate_add_apply,
    lcdChain_18606]
  decide

/-- PPU cadence run, step 18906 of the 4-cycle advance from reset. -/
theorem lcdChain_18906 : lstep^[18906] (Lcd.new, 0) = (⟨0, 1, 0, 0, 168, 0, 0, 0, 0, 0, 0, 0, 312⟩, 1) := by
  rw [show (18906 : Nat) = 150 + 18756 by norm_num, Function.iterate_add_apply,
    lcdChain_18756]
  decide

/-- PPU cadence run, step 19056 of the 4-cycle advance from reset. -/
theorem lcdChain_19056 : lstep^[19056] (Lcd.new, 0) = (⟨0, 1, 0, 0, 169, 0, 0, 0, 0, 0, 0, 0, 456⟩, 1) := by
  rw [show (19056 : Nat) = 150 + 18906 by norm_num, Function.iterate_add_apply,
    lcdChain_18906]
  decide

/-- PPU cadence run, step 19206 of the 4-cycle advance from reset. -/
theorem lcdChain_19206 : lstep^[19206] (Lcd.new, 0) = (⟨0, 1, 0, 0, 171, 0, 0, 0, 0, 0, 0, 0, 144⟩, 1) := by
  rw [show (19206 : Nat) = 150 + 19056 by norm_num, Function.iterate_add_apply,
    lcdChain_19056]
  decide

/-- PPU cadence run, step 19356 of the 4-cycle advance from reset. -/
theorem lcdChain_19356 : lstep^[19356] (Lcd.new, 0) = (⟨0, 1, 0, 0, 172, 0, 0, 0, 0, 0, 0, 0, 288⟩, 1) := by
  rw [show (19356 : Nat) = 150 + 19206 by norm_num, Function.iterate_add_apply,
    lcdChain_19206]
  decide

/-- PPU cadence run, step 19506 of the 4-cycle advance from reset. -/
theorem lcdChain_19506 : lstep^[19506] (Lcd.new, 0) = (⟨0, 1, 0, 0, 173, 0, 0, 0, 0, 0, 0, 0, 432⟩, 1) := by
  rw [show (19506 : Nat) = 150 + 19356 by norm_num, Function.iterate_add_apply,
    lcdChain_19356]
  decide

/-- PPU cadence run, step 19656 of the 4-cycle advance from reset. -/
theorem lcdChain_19656 : lstep^[19656] (Lcd.new, 0) = (⟨0, 1, 0, 0, 175, 0, 0, 0, 0, 0, 0, 0, 120⟩, 1) := by
  rw [show (19656 : Nat) = 150 + 19506 by norm_num, Function.iterate_add_apply,
    lcdChain_19506]
  decide

/-- PPU cadence run, step 19806 of the 4-cycle advance from reset. -/
theorem lcdChain_19806 : lstep^[19806] (Lcd.new, 0) = (⟨0, 1, 0, 0, 176, 0, 0, 0, 0, 0, 0, 0, 264⟩, 1) := by
  rw [show (19806 : Nat) = 150 + 19656 by norm_num, Function.iterate_add_apply,
    lcdChain_19656]
  decide

/-- PPU cadence run, step 19956 of the 4-cycle advance from reset. -/
theorem lcdChain_19956 : lstep^[19956] (Lcd.new, 0) = (⟨0, 1, 0, 0, 177, 0, 0, 0, 0, 0, 0, 0, 408⟩, 1) := by
  rw [show (19956 : Nat) = 150 + 19806 by norm_num, Function.iterate_add_apply,
    lcdChain_19806]
  decide

/-- PPU cadence run, step 20106 of the 4-cycle advance from reset. -/
theorem lcdChain_20106 : lstep^[20106] (Lcd.new, 0) = (⟨0, 1, 0, 0, 179, 0, 0, 0, 0, 0, 0, 0, 96⟩, 1) := by
  rw [show (20106 : Nat) = 150 + 19956 by norm_num, Function.iterate_add_apply,
    lcdChain_19956]
  decide

/-- PPU cadence run, step 20256 of the 4-cycle advance from reset. -/
theorem lcdChain_20256 : lstep^[20256] (Lcd.new, 0) = (⟨0, 1, 0, 0, 180, 0, 0, 0, 0, 0, 0, 0, 240⟩, 1) := by
  rw [show (20256 : Nat) = 150 + 20106 by norm_num, Function.iterate_add_apply,
    lcdChain_20106]
  decide

/-- PPU cadence run, step 20406 of the 4-cycle advance from reset. -/
theorem lcdChain_20406 : lstep^[20406] (Lcd.new, 0) = (⟨0, 1, 0, 0, 181, 0, 0, 0, 0, 0, 0, 0, 384⟩, 1) := by
  rw [show (20406 : Nat) = 150 + 20256 by norm_num, Function.iterate_add_apply,
    lcdChain_20256]
  decide

/-- PPU cadence run, step 20556 of the 4-cycle advance from reset. -/
theorem lcdChain_20556 : lstep^[20556] (Lcd.new, 0) = (⟨0, 1, 0, 0, 183, 0, 0, 0, 0, 0, 0, 0, 72⟩, 1) := by
  rw [show (20556 : Nat) = 150 + 20406 by norm_num, Function.iterate_add_apply,
    lcdChain_20406]
  decide

/-- PPU cadence run, step 20706 of the 4-cycle advance from reset. -/
theorem lcdChain_20706 : lstep^[20706] (Lcd.new, 0) = (⟨0, 1, 0, 0, 184, 0, 0, 0, 0, 0, 0, 0, 216⟩, 1) := by
  rw [show (20706 : Nat) = 150 + 20556 by norm_num, Function.iterate_add_apply,
    lcdChain_20556]
  decide

/-- PPU cadence run, step 20856 of the 4-cycle advance from reset. -/
theorem lcdChain_20856 : lstep^[20856] (Lcd.new, 0) = (⟨0, 1, 0, 0, 185, 0, 0, 0, 0, 0, 0, 0, 360⟩, 1) := by
  rw [show (20856 : Nat) = 150 + 20706 by norm_num, Function.iterate_add_apply,
    lcdChain_20706]
  decide

/-- PPU cadence run, step 21006 of the 4-cycle advance from reset. -/
theorem lcdChain_21006 : lstep^[21006] (Lcd.new, 0) = (⟨0, 1, 0, 0, 187, 0, 0, 0, 0, 0, 0, 0, 48⟩, 1) := by
  rw [show (21006 : Nat) = 150 + 20856 by norm_num, Function.iterate_add_apply,
    lcdChain_20856]
  decide

/-- PPU cadence run, step 21156 of the 4-cycle advance from reset. -/
theorem lcdChain_21156 : lstep^[21156] (Lcd.new, 0) = (⟨0, 1, 0, 0, 188, 0, 0, 0, 0, 0, 0, 0, 192⟩, 1) := by
  rw [show (21156 : Nat) = 150 + 21006 by norm_num, Function.iterate_add_apply,
    lcdChain_21006]
  decide

/-- PPU cadence run, step 21306 of the 4-cycle advance from reset. -/
theorem lcdChain_21306 : lstep^[21306] (Lcd.new, 0) = (⟨0, 1, 0, 0, 189, 0, 0, 0, 0, 0, 0, 0, 336⟩, 1) := by
  rw [show (21306 : Nat) = 150 + 21156 by norm_num, Function.iterate_add_apply,
    lcdChain_21156]
  decide

/-- PPU cadence run, step 21456 of the 4-cycle advance from reset. -/
theorem lcdChain_21456 : lstep^[21456] (Lcd.new, 0) = (⟨0, 1, 0, 0, 191, 0, 0, 0, 0, 0, 0, 0, 24⟩, 1) := by
  rw [show (21456 : Nat) = 150 + 21306 by norm_num, Function.iterate_add_apply,
    lcdChain_21306]
  decide

/-- PPU cadence run, step 21606 of the 4-cycle advance from reset. -/
theorem lcdChain_21606 : lstep^[21606] (Lcd.new, 0) = (⟨0, 1, 0, 0, 192, 0, 0, 0, 0, 0, 0, 0, 168⟩, 1) := by
  rw [show (21606 : Nat) = 150 + 21456 by norm_num, Function.iterate_add_apply,
    lcdChain_21456]
  decide

/-- PPU cadence run, step 21756 of the 4-cycle advance from reset. -/
theorem lcdChain_21756 : lstep^[21756] (Lcd.new, 0) = (⟨0, 1, 0, 0, 193, 0, 0, 0, 0, 0, 0, 0, 312⟩, 1) := by
  rw [show (21756 : Nat) = 150 + 21606 by norm_num, Function.iterate_add_apply,
    lcdChain_21606]
  decide

/-- PPU cadence run, step 21906 of the 4-cycle advance from reset. -/
theorem lcdChain_21906 : lstep^[21906] (Lcd.new, 0) = (⟨0, 1, 0, 0, 194, 0, 0, 0, 0, 0, 0, 0, 456⟩, 1) := by
  rw [show (21906 : Nat) = 150 + 21756 by norm_num, Function.iterate_add_apply,
    lcdChain_21756]
  decide

/-- PPU cadence run, step 22056 of the 4-cycle advance from reset. -/
theorem lcdChain_22056 : lstep^[22056] (Lcd.new, 0) = (⟨0, 1, 0, 0, 196, 0, 0, 0, 0, 0, 0, 0, 144⟩, 1) := by
  rw [show (22056 : Nat) = 150 + 21906 by norm_num, Function.iterate_add_apply,
    lcdChain_21906]
  decide

/-- PPU cadence run, step 22206 of the 4-cycle advance from reset. -/
theorem lcdChain_22206 : lstep^[22206] (Lcd.new, 0) = (⟨0, 1, 0, 0, 197, 0, 0, 0, 0, 0, 0, 0, 288⟩, 1) := by
  rw [show (22206 : Nat) = 150 + 22056 by norm_num, Function.iterate_add_apply,
    lcdChain_22056]
  decide

/-- PPU cadence run, step 22356 of the 4-cycle advance from reset. -/
theorem lcdChain_22356 : lstep^[22356] (Lcd.new, 0) = (⟨0, 1, 0, 0, 198, 0, 0, 0, 0, 0, 0, 0, 432⟩, 1) := by
  rw [show (22356 : Nat) = 150 + 22206 by norm_num, Function.iterate_add_apply,
    lcdChain_22206]
  decide

/-- PPU cadence run, step 22506 of the 4-cycle advance from reset. -/
theorem lcdChain_22506 : lstep^[22506] (Lcd.new, 0) = (⟨0, 1, 0, 0, 200, 0, 0, 0, 0, 0, 0, 0, 120⟩, 1) := by
  rw [show (22506 : Nat) = 150 + 22356 by norm_num, Function.iterate_add_apply,
    lcdChain_22356]
  decide

/-- PPU cadence run, step 22656 of the 4-cycle advance from reset. -/
theorem lcdChain_22656 : lstep^[22656] (Lcd.new, 0) = (⟨0, 1, 0, 0, 201, 0, 0, 0, 0, 0, 0, 0, 264⟩, 1) := by
  rw [show (22656 : Nat) = 150 + 22506 by norm_num, Function.iterate_add_apply,
    lcdChain_22506]
  decide

/-- PPU cadence run, step 22806 of the 4-cycle advance from reset. -/
theorem lcdChain_22806 : lstep^[22806] (Lcd.new, 0) = (⟨0, 1, 0, 0, 202, 0, 0, 0, 0, 0, 0, 0, 408⟩, 1) := by
  rw [show (22806 : Nat) = 150 + 22656 by norm_num, Function.iterate_add_apply,
    lcdChain_22656]
  decide

/-- PPU cadence run, step 22956 of the 4-cycle advance from reset. -/
theorem lcdChain_22956 : lstep^[22956] (Lcd.new, 0) = (⟨0, 1, 0, 0, 204, 0, 0, 0, 0, 0, 0, 0, 96⟩, 1) := by
  rw [show (22956 : Nat) = 150 + 22806 by norm_num, Function.iterate_add_apply,
    lcdChain_22806]
  decide

/-- PPU cadence run, step 23106 of the 4-cycle advance from reset. -/
theorem lcdChain_23106 : lstep^[23106] (Lcd.new, 0) = (⟨0, 1, 0, 0, 205, 0, 0, 0, 0, 0, 0, 0, 240⟩, 1) := by
  rw [show (23106 : Nat) = 150 + 22956 by norm_num, Function.iterate_add_apply,
    lcdChain_22956]
  decide

/-- PPU cadence run, step 23256 of the 4-cycle advance from reset. -/
theorem lcdChain_23256 : lstep^[23256] (Lcd.new, 0) = (⟨0, 1, 0, 0, 206, 0, 0, 0, 0, 0, 0, 0, 384⟩, 1) := by
  rw [show (23256 : Nat) = 150 + 23106 by norm_num, Function.iterate_add_apply,
    lcdChain_23106]
  decide

/-- PPU cadence run, step 23406 of the 4-cycle advance from reset. -/
theorem lcdChain_23406 : lstep^[23406] (Lcd.new, 0) = (⟨0, 1, 0, 0, 208, 0, 0, 0, 0, 0, 0, 0, 72⟩, 1) := by
  rw [show (23406 : Nat) = 150 + 23256 by norm_num, Function.iterate_add_apply,
    lcdChain_23256]
  decide

/-- PPU cadence run, step 23556 of the 4-cycle advance from reset. -/
theorem lcdChain_23556 : lstep^[23556] (Lcd.new, 0) = (⟨0, 1, 0, 0, 209, 0, 0, 0, 0, 0, 0, 0, 216⟩, 1) := by
  rw [show (23556 : Nat) = 150 + 23406 by norm_num, Function.iterate_add_apply,
    lcdChain_23406]
  decide

/-- PPU cadence run, step 23706 of the 4-cycle advance from reset. -/
theorem lcdChain_23706 : lstep^[23706] (Lcd.new, 0) = (⟨0, 1, 0, 0, 210, 0, 0, 0, 0, 0, 0, 0, 360⟩, 1) := by
  rw [show (23706 : Nat) = 150 + 23556 by norm_num, Function.iterate_add_apply,
    lcdChain_23556]
  decide

/-- PPU cadence run, step 23856 of the 4-cycle advance from reset. -/
theorem lcdChain_23856 : lstep^[23856] (Lcd.new, 0) = (⟨0, 1, 0, 0, 212, 0, 0, 0, 0, 0, 0, 0, 48⟩, 1) := by
  rw [show (23856 : Nat) = 150 + 23706 by norm_num, Function.iterate_add_apply,
    lcdChain_23706]
  decide

/-- PPU cadence run, step 24006 of the 4-cycle advance from reset. -/
theorem lcdChain_24006 : lstep^[24006] (Lcd.new, 0) = (⟨0, 1, 0, 0, 213, 0, 0, 0, 0, 0, 0, 0, 192⟩, 1) := by
  rw [show (24006 : Nat) = 150 + 23856 by norm_num, Function.iterate_add_apply,
    lcdChain_23856]
  decide

/-- PPU cadence run, step 24156 of the 4-cycle advance from reset. -/
theorem lcdChain_24156 : lstep^[24156] (Lcd.new, 0) = (⟨0, 1, 0, 0, 214, 0, 0, 0, 0, 0, 0, 0, 336⟩, 1) := by
  rw [show (24156 : Nat) = 150 + 24006 by norm_num, Function.iterate_add_apply,
    lcdChain_24006]
  decide

/-- PPU cadence run, step 24306 of the 4-cycle advance from reset. -/
theorem lcdChain_24306 : lstep^[24306] (Lcd.new, 0) = (⟨0, 1, 0, 0, 216, 0, 0, 0, 0, 0, 0, 0, 24⟩, 1) := by
  rw [show (24306 : Nat) = 150 + 24156 by norm_num, Function.iterate_add_apply,
    lcdChain_24156]
  decide

/-- PPU cadence run, step 24456 of the 4-cycle advance from reset. -/
theorem lcdChain_24456 : lstep^[24456] (Lcd.new, 0) = (⟨0, 1, 0, 0, 217, 0, 0, 0, 0, 0, 0, 0, 168⟩, 1) := by
  rw [show (24456 : Nat) = 150 + 24306 by norm_num, Function.iterate_add_apply,
    lcdChain_24306]
  decide

/-- PPU cadence run, step 24606 of the 4-cycle advance from reset. -/
theorem lcdChain_24606 : lstep^[24606] (Lcd.new, 0) = (⟨0, 1, 0, 0, 218, 0, 0, 0, 0, 0, 0, 0, 312⟩, 1) := by
  rw [show (24606 : Nat) = 150 + 24456 by norm_num, Function.iterate_add_apply,
    lcdChain_24456]
  decide

/-- PPU cadence run, step 24756 of the 4-cycle advance from reset. -/
theorem lcdChain_24756 : lstep^[24756] (Lcd.new, 0) = (⟨0, 1, 0, 0, 219, 0, 0, 0, 0, 0, 0, 0, 456⟩, 1) := by
  rw [show (24756 : Nat) = 150 + 24606 by norm_num, Function.iterate_add_apply,
    lcdChain_24606]
  decide

/-- PPU cadence run, step 24906 of the 4-cycle advance from reset. -/
theorem lcdChain_24906 : lstep^[24906] (Lcd.new, 0) = (⟨0, 1, 0, 0, 221, 0, 0, 0, 0, 0, 0, 0, 144⟩, 1) := by
  rw [show (24906 : Nat) = 150 + 24756 by norm_num, Function.iterate_add_apply,
    lcdChain_24756]
  decide

/-- PPU cadence run, step 25056 of the 4-cycle advance from reset. -/
theorem lcdChain_25056 : lstep^[25056] (Lcd.new, 0) = (⟨0, 1, 0, 0, 222, 0, 0, 0, 0, 0, 0, 0, 288⟩, 1) := by
  rw [show (25056 : Nat) = 150 + 24906 by norm_num, Function.iterate_add_apply,
    lcdChain_24906]
  decide

/-- PPU cadence run, step 25206 of the 4-cycle advance from reset. -/
theorem lcdChain_25206 : lstep^[25206] (Lcd.new, 0) = (⟨0, 1, 0, 0, 223, 0, 0, 0, 0, 0, 0, 0, 432⟩, 1) := by
  rw [show (25206 : Nat) = 150 + 25056 by norm_num, Function.iterate_add_apply,
    lcdChain_25056]
  decide

/-- PPU cadence run, step 25356 of the 4-cycle advance from reset. -/
theorem lcdChain_25356 : lstep^[25356] (Lcd.new, 0) = (⟨0, 1, 0, 0, 225, 0, 0, 0, 0, 0, 0, 0, 120⟩, 1) := by
  rw [show (25356 : Nat) = 150 + 25206 by norm_num, Function.iterate_add_apply,
    lcdChain_25206]
  decide

/-- PPU cadence run, step 25506 of the 4-cycle advance from reset. -/
theorem lcdChain_25506 : lstep^[25506] (Lcd.new, 0) = (⟨0, 1, 0, 0, 226, 0, 0, 0, 0, 0, 0, 0, 264⟩, 1) := by
  rw [show (25506 : Nat) = 150 + 25356 by norm_num, Function.iterate_add_apply,
    lcdChain_25356]
  decide

/-- PPU cadence run, step 25656 of the 4-cycle advance from reset. -/
theorem lcdChain_25656 : lstep^[25656] (Lcd.new, 0) = (⟨0, 1, 0, 0, 227, 0, 0, 0, 0, 0, 0, 0, 408⟩, 1) := by
  rw [show (25656 : Nat) = 150 + 25506 by norm_num, Function.iterate_add_apply,
    lcdChain_25506]
  decide

/-- PPU cadence run, step 25806 of the 4-cycle advance from reset. -/
theorem lcdChain_25806 : lstep^[25806] (Lcd.new, 0) = (⟨0, 1, 0, 0, 229, 0, 0, 0, 0, 0, 0, 0, 96⟩, 1) := by
  rw [show (25806 : Nat) = 150 + 25656 by norm_num, Function.iterate_add_apply,
    lcdChain_25656]
  decide

/-- PPU cadence run, step 25956 of the 4-cycle advance from reset. -/
theorem lcdChain_25956 : lstep^[25956] (Lcd.new, 0) = (⟨0, 1, 0, 0, 230, 0, 0, 0, 0, 0, 0, 0, 240⟩, 1) := by
  rw [show (25956 : Nat) = 150 + 25806 by norm_num, Function.iterate_add_apply,
    lcdChain_25806]
  decide

/-- PPU cadence run, step 26106 of the 4-cycle advance from reset. -/
theorem lcdChain_26106 : lstep^[26106] (Lcd.new, 0) = (⟨0, 1, 0, 0, 231, 0, 0, 0, 0, 0, 0, 0, 384⟩, 1) := by
  rw [show (26106 : Nat) = 150 + 25956 by norm_num, Function.iterate_add_apply,
    lcdChain_25956]
  decide

/-- PPU cadence run, step 26256 of the 4-cycle advance from reset. -/
theorem lcdChain_26256 : lstep^[26256] (Lcd.new, 0) = (⟨0, 1, 0, 0, 233, 0, 0, 0, 0, 0, 0, 0, 72⟩, 1) := by
  rw [show (26256 : Nat) = 150 + 26106 by norm_num, Function.iterate_add_apply,
    lcdChain_26106]
  decide

/-- PPU cadence run, step 26406 of the 4-cycle advance from reset. -/
theorem lcdChain_26406 : lstep^[26406] (Lcd.new, 0) = (⟨0, 1, 0, 0, 234, 0, 0, 0, 0, 0, 0, 0, 216⟩, 1) := by
  rw [show (26406 : Nat) = 150 + 26256 by norm_num, Function.iterate_add_apply,
    lcdChain_26256]
  decide

/-- PPU cadence run, step 26556 of the 4-cycle advance from reset. -/
theorem lcdChain_26556 : lstep^[26556] (Lcd.new, 0) = (⟨0, 1, 0, 0, 235, 0, 0, 0, 0, 0, 0, 0, 360⟩, 1) := by
  rw [show (26556 : Nat) = 150 + 26406 by norm_num, Function.iterate_add_apply,
    lcdChain_26406]
  decide

/-- PPU cadence run, step 26706 of the 4-cycle advance from reset. -/
theorem lcdChain_26706 : lstep^[26706] (Lcd.new, 0) = (⟨0, 1, 0, 0, 237, 0, 0, 0, 0, 0, 0, 0, 48⟩, 1) := by
  rw [show (26706 : Nat) = 150 + 26556 by norm_num, Function.iterate_add_apply,
    lcdChain_26556]
  decide

/-- PPU cadence run, step 26856 of the 4-cycle advance from reset. -/
theorem lcdChain_26856 : lstep^[26856] (Lcd.new, 0) = (⟨0, 1, 0, 0, 238, 0, 0, 0, 0, 0, 0, 0, 192⟩, 1) := by
  rw [show (26856 : Nat) = 150 + 26706 by norm_num, Function.iterate_add_apply,
    lcdChain_26706]
  decide

/-- PPU cadence run, step 27006 of the 4-cycle advance from reset. -/
theorem lcdChain_27006 : lstep^[27006] (Lcd.new, 0) = (⟨0, 1, 0, 0, 239, 0, 0, 0, 0, 0, 0, 0, 336⟩, 1) := by
  rw [show (27006 : Nat) = 150 + 26856 by norm_num, Function.iterate_add_apply,
    lcdChain_26856]
  decide

/-- PPU cadence run, step 27156 of the 4-cycle advance from reset. -/
theorem lcdChain_27156 : lstep^[27156] (Lcd.new, 0) = (⟨0, 1, 0, 0, 241, 0, 0, 0, 0, 0, 0, 0, 24⟩, 1) := by
  rw [show (27156 : Nat) = 150 + 27006 by norm_num, Function.iterate_add_apply,
    lcdChain_27006]
  decide

/-- PPU cadence run, step 27306 of the 4-cycle advance from reset. -/
theorem lcdChain_27306 : lstep^[27306] (Lcd.new, 0) = (⟨0, 1, 0, 0, 242, 0, 0, 0, 0, 0, 0, 0, 168⟩, 1) := by
  rw [show (27306 : Nat) = 150 + 27156 by norm_num, Function.iterate_add_apply,
    lcdChain_27156]
  decide

/-- PPU cadence run, step 27456 of the 4-cycle advance from reset. -/
theorem lcdChain_27456 : lstep^[27456] (Lcd.new, 0) = (⟨0, 1, 0, 0, 243, 0, 0, 0, 0, 0, 0, 0, 312⟩, 1) := by
  rw [show (27456 : Nat) = 150 + 27306 by norm_num, Function.iterate_add_apply,
    lcdChain_27306]
  decide

/-- PPU cadence run, step 27606 of the 4-cycle advance from reset. -/
theorem lcdChain_27606 : lstep^[27606] (Lcd.new, 0) = (⟨0, 1, 0, 0, 244, 0, 0, 0, 0, 0, 0, 0, 456⟩, 1) := by
  rw [show (27606 : Nat) = 150 + 27456 by norm_num, Function.iterate_add_apply,
    lcdChain_27456]
  decide

/-- PPU cadence run, step 27756 of the 4-cycle advance from reset. -/
theorem lcdChain_27756 : lstep^[27756] (Lcd.new, 0) = (⟨0, 1, 0, 0, 246, 0, 0, 0, 0, 0, 0, 0, 144⟩, 1) := by
  rw [show (27756 : Nat) = 150 + 27606 by norm_num, Function.iterate_add_apply,
    lcdChain_27606]
  decide

/-- PPU cadence run, step 27906 of the 4-cycle advance from reset. -/
theorem lcdChain_27906 : lstep^[27906] (Lcd.new, 0) = (⟨0, 1, 0, 0, 247, 0, 0, 0, 0, 0, 0, 0, 288⟩, 1) := by
  rw [show (27906 : Nat) = 150 + 27756 by norm_num, Function.iterate_add_apply,
    lcdChain_27756]
  decide

/-- PPU cadence run, step 28056 of the 4-cycle advance from reset. -/
theorem lcdChain_28056 : lstep^[28056] (Lcd.new, 0) = (⟨0, 1, 0, 0, 248, 0, 0, 0, 0, 0, 0, 0, 432⟩, 1) := by
  rw [show (28056 : Nat) = 150 + 27906 by norm_num, Function.iterate_add_apply,
    lcdChain_27906]
  decide

/-- PPU cadence run, step 28206 of the 4-cycle advance from reset. -/
theorem lcdChain_28206 : lstep^[28206] (Lcd.new, 0) = (⟨0, 1, 0, 0, 250, 0, 0, 0, 0, 0, 0, 0, 120⟩, 1) := by
  rw [show (28206 : Nat) = 150 + 28056 by norm_num, Function.iterate_add_apply,
    lcdChain_28056]
  decide

/-- PPU cadence run, step 28356 of the 4-cycle advance from reset. -/
theorem lcdChain_28356 : lstep^[28356] (Lcd.new, 0) = (⟨0, 1, 0, 0, 251, 0, 0, 0, 0, 0, 0, 0, 264⟩, 1) := by
  rw [show (28356 : Nat) = 150 + 28206 by norm_num, Function.iterate_add_apply,
    lcdChain_28206]
  decide

/-- PPU cadence run, step 28506 of the 4-cycle advance from reset. -/
theorem lcdChain_28506 : lstep^[28506] (Lcd.new, 0) = (⟨0, 1, 0, 0, 252, 0, 0, 0, 0, 0, 0, 0, 408⟩, 1) := by
  rw [show (28506 : Nat) = 150 + 28356 by norm_num, Function.iterate_add_apply,
    lcdChain_28356]
  decide

/-- PPU cadence run, step 28656 of the 4-cycle advance from reset. -/
theorem lcdChain_28656 : lstep^[28656] (Lcd.new, 0) = (⟨0, 1, 0, 0, 254, 0, 0, 0, 0, 0, 0, 0, 96⟩, 1) := by
  rw [show (28656 : Nat) = 150 + 28506 by norm_num, Function.iterate_add_apply,
    lcdChain_28506]
  decide

/-- PPU cadence run, step 28806 of the 4-cycle advance from reset. -/
theorem lcdChain_28806 : lstep^[28806] (Lcd.new, 0) = (⟨0, 1, 0, 0, 255, 0, 0, 0, 0, 0, 0, 0, 240⟩, 1) := by
  rw [show (28806 : Nat) = 150 + 28656 by norm_num, Function.iterate_add_apply,
    lcdChain_28656]
  decide

/-- PPU cadence run, step 28860 of the 4-cycle advance from reset. -/
theorem lcdChain_28860 : lstep^[28860] (Lcd.new, 0) = (⟨0, 1, 0, 0, 255, 0, 0, 0, 0, 0, 0, 0, 456⟩, 1) := by
  rw [show (28860 : Nat) = 54 + 28806 by norm_num, Function.iterate_add_apply,
    lcdChain_28806]
  decide

/-- PPU cadence run, step 28861 of the 4-cycle advance from reset. -/
theorem lcdChain_28861 : lstep^[28861] (Lcd.new, 0) = (⟨0, 0, 0, 0, 0, 0, 0, 0, 0, 0, 0, 0, 4⟩, 1) := by
  rw [show (28861 : Nat) = 1 + 28860 by norm_num, Function.iterate_add_apply,
    lcdChain_28860]
  decide

/-! Arithmetic helper lemmas. -/

/-- Appending `k` low bits: `(a <<< k) ||| b = a * 2^k + b` when `b < 2^k`. -/
theorem shiftLeft_lor_eq_add (k a : Nat) :
    ∀ b, b < 2^k → (a <<< k) ||| b = a * 2^k + b := by
  induction k with
  | zero =>
    intro b hb
    have hb0 : b = 0 := by omega
    subst hb0; simp
  | succ k ih =>
    intro b hb
    rw [← Nat.bit_decomp b]
    have ha : a <<< (k+1) = Nat.bit false (a <<< k) := by
      simp [Nat.shiftLeft_succ, Nat.bit]
    have hb' : Nat.bit b.bodd b.div2 < 2 ^ (k+1) := by
      rw [Nat.bit_decomp]; exact hb
    have hb2 : b.div2 < 2 ^ k := Nat.bit_lt_two_pow_succ_iff.mp hb'
    rw [ha, Nat.lor_bit, Bool.false_or, ih _ hb2]
    cases b.bodd <;> simp [Nat.bit] <;> ring

/-- Reassembling a 16-bit value from its high and low bytes, as
`stack_read_u16`/`Cpu.de` do after `stack_write_u16`/`Cpu.set_de` split it. -/
theorem recompose_u16 (v : Nat) (hv : v < 65536) :
    ((((v >>> 8) &&& 255) <<< 8) ||| (v &&& 255)) = v := by
  have h1 : v &&& 255 = v % 256 := by
    have := Nat.and_pow_two_sub_one_eq_mod v 8
    norm_num at this
    exact this
  have h2 : (v >>> 8) &&& 255 = (v / 256) % 256 := by
    have ha := Nat.and_pow_two_sub_one_eq_mod (v >>> 8) 8
    have hbb := Nat.shiftRight_eq_div_pow v 8
    norm_num at ha hbb
    rw [hbb] at ha
    rw [hbb, ha]
  rw [h1, h2, shiftLeft_lor_eq_add 8 _ _ (by omega)]
  omega

/-! Memory-map region lemmas. -/

/-- A write into work RAM (0xc000-0xdfff) only updates the `wram` array. -/
theorem write_wram (mm : MemoryMap) (a v : Nat)
    (h1 : 0xc000 ≤ a) (h2 : a ≤ 0xdfff) :
    MemoryMap.write mm a v = { mm with wram := upd mm.wram (a - 0xc000) v } := by
  unfold MemoryMap.write MemoryMap.handle_addr
  rw [if_neg (by omega), if_neg (by omega), if_neg (by omega), if_neg (by omega),
    if_pos (by omega : a ≤ 0xdfff)]
  rfl

/-- A read from work RAM (0xc000-0xdfff) returns the `wram` byte. -/
theorem read_wram (mm : MemoryMap) (a : Nat)
    (h1 : 0xc000 ≤ a) (h2 : a ≤ 0xdfff) :
    (MemoryMap.read mm a).2 = mm.wram (a - 0xc000) := by
  unfold MemoryMap.read MemoryMap.handle_addr
  rw [if_neg (by omega), if_neg (by omega), if_neg (by omega), if_neg (by omega),
    if_pos (by omega : a ≤ 0xdfff)]
  rfl

/-- Reading back the updated index. -/
theorem upd_same (f : Nat → Nat) (i v : Nat) : upd f i v i = v := by
  simp [upd]

/-- Reading back another index. -/
theorem upd_other (f : Nat → Nat) (i v j : Nat) (h : j ≠ i) :
    upd f i v j = f j := by
  simp [upd, h]

/-! Interrupt-check lemmas. -/

/-- `interrupt_triggered` is a no-op returning `false` when IME is clear. -/
theorem triggered_not_ime (mm : MemoryMap) (int : Nat)
    (h : mm.interrupt_master_enable = false) :
    MemoryMap.interrupt_triggered mm int = (mm, false) := by
  simp [MemoryMap.interrupt_triggered, h]

/-- `interrupt_triggered` is a no-op returning `false` when the source is not
pending in both IE and IF. -/
theorem triggered_skip (mm : MemoryMap) (int : Nat)
    (h : ¬(mm.interrupt_enable &&& int > 0 ∧ mm.interrupt_flag &&& int > 0)) :
    MemoryMap.interrupt_triggered mm int = (mm, false) := by
  unfold MemoryMap.interrupt_triggered
  split_ifs <;> first | rfl | (exact absurd (by assumption) h)

/-- `interrupt_triggered` fires when IME is set and the source is pending:
IME is cleared and the source's IF bit is cleared. -/
theorem triggered_fire (mm : MemoryMap) (int : Nat)
    (hime : mm.interrupt_master_enable = true)
    (h : mm.interrupt_enable &&& int > 0 ∧ mm.interrupt_flag &&& int > 0) :
    MemoryMap.interrupt_triggered mm int =
      ({ mm with interrupt_master_enable := false,
                 interrupt_flag := mm.interrupt_flag &&& (255 ^^^ int) },
       true) := by
  simp [MemoryMap.interrupt_triggered, hime, h]

/-- `service_interrupt` with SP inside work RAM, in explicit record form:
clears `halt`, pushes the two PC bytes at `sp-1`/`sp-2`, decrements SP by 2
and jumps; no other field (in particular not `cycles`) changes. -/
theorem service_interrupt_wram (c : Cpu) (mm : MemoryMap) (v : Nat)
    (hsp1 : 0xc002 ≤ c.sp) (hsp2 : c.sp ≤ 0xe000) :
    Cpu.service_interrupt c mm v =
      ({ c with halt := false, sp := c.sp - 2, pc := v },
       { mm with wram := (upd (upd mm.wram (c.sp - 1 - 0xc000)
           ((c.pc >>> 8) &&& 255)) (c.sp - 2 - 0xc000) (c.pc &&& 0xff)) }) := by
  have e1 : u16sub c.sp 1 = c.sp - 1 := by unfold u16sub; omega
  have e2 : u16sub c.sp 2 = c.sp - 2 := by unfold u16sub; omega
  simp only [Cpu.service_interrupt, Cpu.stack_write_u16]
  rw [e1, e2, write_wram _ _ _ (by omega) (by omega),
    write_wram _ _ _ (by omega) (by omega)]

/-- `service_interrupts` is the identity when IME is clear. -/
theorem service_interrupts_not_ime (c : Cpu) (mm : MemoryMap)
    (h : mm.interrupt_master_enable = false) :
    Cpu.service_interrupts c mm = (c, mm) := by
  simp [Cpu.service_interrupts, triggered_not_ime, h]

/-- `service_interrupts` when the highest-priority pending source is
vblank (mask 1): IME cleared, only that IF bit cleared, PC pushed into
work RAM, SP decremented by 2, jump to 0x40, `halt` cleared; no other field
(in particular not `cycles`) changes. -/
theorem service_fires_vblank (c : Cpu) (mm : MemoryMap)
    (hime : mm.interrupt_master_enable = true)
    (hpend : mm.interrupt_enable &&& 1 > 0 ∧ mm.interrupt_flag &&& 1 > 0)
    (hsp1 : 0xc002 ≤ c.sp) (hsp2 : c.sp ≤ 0xe000) :
    Cpu.service_interrupts c mm =
      ({ c with halt := false, sp := c.sp - 2, pc := 0x40 },
       { mm with interrupt_master_enable := false,
                 interrupt_flag := mm.interrupt_flag &&& (255 ^^^ 1),
                 wram := (upd (upd mm.wram (c.sp - 1 - 0xc000)
                   ((c.pc >>> 8) &&& 255)) (c.sp - 2 - 0xc000)
                   (c.pc &&& 0xff)) }) := by
  unfold Cpu.service_interrupts
  rw [show INTERRUPT_VBLANK = 1 from rfl, triggered_fire mm 1 hime hpend]
  simp only
  rw [service_interrupt_wram c _ 0x40 hsp1 hsp2]
  rfl

/-- `service_interrupts` when the highest-priority pending source is
lcdstat (mask 2): IME cleared, only that IF bit cleared, PC pushed into
work RAM, SP decremented by 2, jump to 0x48, `halt` cleared; no other field
(in particular not `cycles`) changes. -/
theorem service_fires_lcdstat (c : Cpu) (mm : MemoryMap)
    (hime : mm.interrupt_master_enable = true)
    (hpend : mm.interrupt_enable &&& 2 > 0 ∧ mm.interrupt_flag &&& 2 > 0)
    (hs0 : ¬(mm.interrupt_enable &&& 1 > 0 ∧ mm.interrupt_flag &&& 1 > 0))
    (hsp1 : 0xc002 ≤ c.sp) (hsp2 : c.sp ≤ 0xe000) :
    Cpu.service_interrupts c mm =
      ({ c with halt := false, sp := c.sp - 2, pc := 0x48 },
       { mm with interrupt_master_enable := false,
                 interrupt_flag := mm.interrupt_flag &&& (255 ^^^ 2),
                 wram := (upd (upd mm.wram (c.sp - 1 - 0xc000)
                   ((c.pc >>> 8) &&& 255)) (c.sp - 2 - 0xc000)
                   (c.pc &&& 0xff)) }) := by
  unfold Cpu.service_interrupts
  rw [show INTERRUPT_VBLANK = 1 from rfl, triggered_skip mm 1 hs0]
  simp only [Bool.false_eq_true, if_false]
  rw [show INTERRUPT_LCD_STAT = 2 from rfl, triggered_fire mm 2 hime hpend]
  simp only
  rw [service_interrupt_wram c _ 0x48 hsp1 hsp2]
  rfl

/-- `service_interrupts` when the highest-priority pending source is
timer (mask 4): IME cleared, only that IF bit cleared, PC pushed into
work RAM, SP decremented by 2, jump to 0x50, `halt` cleared; no other field
(in particular not `cycles`) changes. -/
theorem service_fires_timer (c : Cpu) (mm : MemoryMap)
    (hime : mm.interrupt_master_enable = true)
    (hpend : mm.interrupt_enable &&& 4 > 0 ∧ mm.interrupt_flag &&& 4 > 0)
    (hs0 : ¬(mm.interrupt_enable &&& 1 > 0 ∧ mm.interrupt_flag &&& 1 > 0))
    (hs1 : ¬(mm.interrupt_enable &&& 2 > 0 ∧ mm.interrupt_flag &&& 2 > 0))
    (hsp1 : 0xc002 ≤ c.sp) (hsp2 : c.sp ≤ 0xe000) :
    Cpu.service_interrupts c mm =
      ({ c with halt := false, sp := c.sp - 2, pc := 0x50 },
       { mm with interrupt_master_enable := false,
                 interrupt_flag := mm.interrupt_flag &&& (255 ^^^ 4),
                 wram := (upd (upd mm.wram (c.sp - 1 - 0xc000)
                   ((c.pc >>> 8) &&& 255)) (c.sp - 2 - 0xc000)
                   (c.pc &&& 0xff)) }) := by
  unfold Cpu.service_interrupts
  rw [show INTERRUPT_VBLANK = 1 from rfl, triggered_skip mm 1 hs0]
  simp only [Bool.false_eq_true, if_false]
  rw [show INTERRUPT_LCD_STAT = 2 from rfl, triggered_skip mm 2 hs1]
  simp only [Bool.false_eq_true, if_false]
  rw [show INTERRUPT_TIMER = 4 from rfl, triggered_fire mm 4 hime hpend]
  simp only
  rw [service_interrupt_wram c _ 0x50 hsp1 hsp2]
  rfl

/-- `service_interrupts` when the highest-priority pending source is
serial (mask 8): IME cleared, only that IF bit cleared, PC pushed into
work RAM, SP decremented by 2, jump to 0x58, `halt` cleared; no other field
(in particular not `cycles`) changes. -/
theorem service_fires_serial (c : Cpu) (mm : MemoryMap)
    (hime : mm.interrupt_master_enable = true)
    (hpend : mm.interrupt_enable &&& 8 > 0 ∧ mm.interrupt_flag &&& 8 > 0)
    (hs0 : ¬(mm.interrupt_enable &&& 1 > 0 ∧ mm.interrupt_flag &&& 1 > 0))
    (hs1 : ¬(mm.interrupt_enable &&& 2 > 0 ∧ mm.interrupt_flag &&& 2 > 0))
    (hs2 : ¬(mm.interrupt_enable &&& 4 > 0 ∧ mm.interrupt_flag &&& 4 > 0))
    (hsp1 : 0xc002 ≤ c.sp) (hsp2 : c.sp ≤ 0xe000) :
    Cpu.service_interrupts c mm =
      ({ c with halt := false, sp := c.sp - 2, pc := 0x58 },
       { mm with interrupt_master_enable := false,
                 interrupt_flag := mm.interrupt_flag &&& (255 ^^^ 8),
                 wram := (upd (upd mm.wram (c.sp - 1 - 0xc000)
                   ((c.pc >>> 8) &&& 255)) (c.sp - 2 - 0xc000)
                   (c.pc &&& 0xff)) }) := by
  unfold Cpu.service_interrupts
  rw [show INTERRUPT_VBLANK = 1 from rfl, triggered_skip mm 1 hs0]
  simp only [Bool.false_eq_true, if_false]
  rw [show INTERRUPT_LCD_STAT = 2 from rfl, triggered_skip mm 2 hs1]
  simp only [Bool.false_eq_true, if_false]
  rw [show INTERRUPT_TIMER = 4 from rfl, triggered_skip mm 4 hs2]
  simp only [Bool.false_eq_true, if_false]
  rw [show INTERRUPT_SERIAL = 8 from rfl, triggered_fire mm 8 hime hpend]
  simp only
  rw [service_interrupt_wram c _ 0x58 hsp1 hsp2]
  rfl

/-- `service_interrupts` when the highest-priority pending source is
joypad (mask 16): IME cleared, only that IF bit cleared, PC pushed into
work RAM, SP decremented by 2, jump to 0x60, `halt` cleared; no other field
(in particular not `cycles`) changes. -/
theorem service_fires_joypad (c : Cpu) (mm : MemoryMap)
    (hime : mm.interrupt_master_enable = true)
    (hpend : mm.interrupt_enable &&& 16 > 0 ∧ mm.interrupt_flag &&& 16 > 0)
    (hs0 : ¬(mm.interrupt_enable &&& 1 > 0 ∧ mm.interrupt_flag &&& 1 > 0))
    (hs1 : ¬(mm.interrupt_enable &&& 2 > 0 ∧ mm.interrupt_flag &&& 2 > 0))
    (hs2 : ¬(mm.interrupt_enable &&& 4 > 0 ∧ mm.interrupt_flag &&& 4 > 0))
    (hs3 : ¬(mm.interrupt_enable &&& 8 > 0 ∧ mm.interrupt_flag &&& 8 > 0))
    (hsp1 : 0xc002 ≤ c.sp) (hsp2 : c.sp ≤ 0xe000) :
    Cpu.service_interrupts c mm =
      ({ c with halt := false, sp := c.sp - 2, pc := 0x60 },
       { mm with interrupt_master_enable := false,
                 interrupt_flag := mm.interrupt_flag &&& (255 ^^^ 16),
                 wram := (upd (upd mm.wram (c.sp - 1 - 0xc000)
                   ((c.pc >>> 8) &&& 255)) (c.sp - 2 - 0xc000)
                   (c.pc &&& 0xff)) }) := by
  unfold Cpu.service_interrupts
  rw [show INTERRUPT_VBLANK = 1 from rfl, triggered_skip mm 1 hs0]
  simp only [Bool.false_eq_true, if_false]
  rw [show INTERRUPT_LCD_STAT = 2 from rfl, triggered_skip mm 2 hs1]
  simp only [Bool.false_eq_true, if_false]
  rw [show INTERRUPT_TIMER = 4 from rfl, triggered_skip mm 4 hs2]
  simp only [Bool.false_eq_true, if_false]
  rw [show INTERRUPT_SERIAL = 8 from rfl, triggered_skip mm 8 hs3]
  simp only [Bool.false_eq_true, if_false]
  rw [show INTERRUPT_JOYPAD = 16 from rfl, triggered_fire mm 16 hime hpend]
  simp only
  rw [service_interrupt_wram c _ 0x60 hsp1 hsp2]
  rfl

/-- Master lemma: if IME is set, source `i` (0 = VBlank .. 4 = Joypad) is
pending in both IE and IF, no higher-priority source is pending, and SP
points into work RAM, then `service_interrupts` services exactly source `i`:
IME cleared, only bit `i` of IF cleared, PC pushed (low byte at `sp-2`), SP
decremented by 2, jump to vector `0x40 + 8*i`, `halt` cleared, and every
other field — the cycle counter included — unchanged. -/
theorem service_fires (c : Cpu) (mm : MemoryMap) (i : Nat) (hi : i < 5)
    (hime : mm.interrupt_master_enable = true)
    (hpend : mm.interrupt_enable &&& 2^i > 0 ∧ mm.interrupt_flag &&& 2^i > 0)
    (hskip : ∀ j, j < i →
      ¬(mm.interrupt_enable &&& 2^j > 0 ∧ mm.interrupt_flag &&& 2^j > 0))
    (hsp1 : 0xc002 ≤ c.sp) (hsp2 : c.sp ≤ 0xe000) :
    Cpu.service_interrupts c mm =
      ({ c with halt := false, sp := c.sp - 2, pc := 0x40 + 8 * i },
       { mm with interrupt_master_enable := false,
                 interrupt_flag := mm.interrupt_flag &&& (255 ^^^ 2^i),
                 wram := (upd (upd mm.wram (c.sp - 1 - 0xc000)
                   ((c.pc >>> 8) &&& 255)) (c.sp - 2 - 0xc000)
                   (c.pc &&& 0xff)) }) := by
  obtain rfl | rfl | rfl | rfl | rfl :
      i = 0 ∨ i = 1 ∨ i = 2 ∨ i = 3 ∨ i = 4 := by omega
  · rw [show ((2:Nat)^0) = 1 by norm_num, show (0x40 + 8*0 : Nat) = 0x40 by norm_num]
    exact service_fires_vblank c mm hime hpend hsp1 hsp2
  · rw [show ((2:Nat)^1) = 2 by norm_num, show (0x40 + 8*1 : Nat) = 0x48 by norm_num]
    exact service_fires_lcdstat c mm hime hpend (hskip 0 (by norm_num)) hsp1 hsp2
  · rw [show ((2:Nat)^2) = 4 by norm_num, show (0x40 + 8*2 : Nat) = 0x50 by norm_num]
    exact service_fires_timer c mm hime hpend (hskip 0 (by norm_num))
      (hskip 1 (by norm_num)) hsp1 hsp2
  · rw [show ((2:Nat)^3) = 8 by norm_num, show (0x40 + 8*3 : Nat) = 0x58 by norm_num]
    exact service_fires_serial c mm hime hpend (hskip 0 (by norm_num))
      (hskip 1 (by norm_num)) (hskip 2 (by norm_num)) hsp1 hsp2
  · rw [show ((2:Nat)^4) = 16 by norm_num, show (0x40 + 8*4 : Nat) = 0x60 by norm_num]
    exact service_fires_joypad c mm hime hpend (hskip 0 (by norm_num))
      (hskip 1 (by norm_num)) (hskip 2 (by norm_num)) (hskip 3 (by norm_num)) hsp1 hsp2

/-- A memory read (`handle_addr` with `write = false`) leaves the map
unchanged, over the whole address space. -/
theorem read_fst (mm : MemoryMap) (a : Nat) : (MemoryMap.read mm a).1 = mm := by
  unfold MemoryMap.read MemoryMap.handle_addr
  by_cases h1 : a ≤ 0x3fff
  · rw [if_pos h1]
    try rfl
  rw [if_neg h1]
  by_cases h2 : a ≤ 0x7fff
  · rw [if_pos h2]
    try rfl
  rw [if_neg h2]
  by_cases h3 : a ≤ 0x9fff
  · rw [if_pos h3]
    try rfl
  rw [if_neg h3]
  by_cases h4 : a < 0xc000
  · rw [if_pos h4]
    try rfl
  rw [if_neg h4]
  by_cases h5 : a ≤ 0xdfff
  · rw [if_pos h5]
    try rfl
  rw [if_neg h5]
  by_cases h6 : a ≤ 0xfdff
  · rw [if_pos h6]
    try rfl
  rw [if_neg h6]
  by_cases h7 : a ≤ 0xfe9f
  · rw [if_pos h7]
    try rfl
  rw [if_neg h7]
  by_cases h8 : a ≤ 0xfeff
  · rw [if_pos h8]
    try rfl
  rw [if_neg h8]
  by_cases h9 : a ≤ 0xff7f
  · rw [if_pos h9]
    exact handle_ioport_read_fst mm a 0
  rw [if_neg h9]
  by_cases h10 : a ≤ 0xfffe
  · rw [if_pos h10]
    try rfl
  rw [if_neg h10]
  by_cases h11 : a = 0xffff
  · rw [if_pos h11]
    try rfl
  rw [if_neg h11]
  try rfl

/-- cpu.rs:379 `stack_write_u16` with SP inside work RAM, in record form. -/
theorem stack_write_wram (c : Cpu) (mm : MemoryMap) (a : Nat)
    (hsp1 : 0xc002 ≤ c.sp) (hsp2 : c.sp ≤ 0xe000) :
    Cpu.stack_write_u16 c mm a =
      ({ c with sp := c.sp - 2 },
       { mm with wram := (upd (upd mm.wram (c.sp - 1 - 0xc000)
           ((a >>> 8) &&& 255)) (c.sp - 2 - 0xc000) (a &&& 0xff)) }) := by
  have e1 : u16sub c.sp 1 = c.sp - 1 := by unfold u16sub; omega
  have e2 : u16sub c.sp 2 = c.sp - 2 := by unfold u16sub; omega
  simp only [Cpu.stack_write_u16]
  rw [e1, e2, write_wram _ _ _ (by omega) (by omega),
    write_wram _ _ _ (by omega) (by omega)]

/-- cpu.rs:385 `stack_read_u16` with SP inside work RAM (and one below its
top), in record form: low byte from `sp`, high byte from `sp+1`, SP
incremented by 2, memory untouched. -/
theorem stack_read_wram (c : Cpu) (mm : MemoryMap)
    (hsp1 : 0xc000 ≤ c.sp) (hsp2 : c.sp + 1 ≤ 0xdfff) :
    Cpu.stack_read_u16 c mm =
      ({ c with sp := c.sp + 2 }, mm,
       ((mm.wram (c.sp + 1 - 0xc000)) <<< 8) ||| mm.wram (c.sp - 0xc000)) := by
  have e1 : u16add c.sp 1 = c.sp + 1 := by unfold u16add; omega
  have e2 : u16add c.sp 2 = c.sp + 2 := by unfold u16add; omega
  simp only [Cpu.stack_read_u16, read_fst]
  rw [e1, e2, read_wram _ _ (by omega) (by omega),
    read_wram _ _ (by omega) (by omega)]

/-! Concrete machine states used by counterexamples and witnesses. -/

/-- A concrete CPU state: post-boot registers with PC = 0x1234, SP = 0xd000
(inside work RAM) and 100 accumulated cycles. -/
def cexCpu : Cpu := { Cpu.new with pc := 0x1234, sp := 0xd000, cycles := 100 }

/-- A concrete memory state: reset memory with IME set, IE = 0xff and only
the Timer bit (bit 2) pending in IF. -/
def cexMM : MemoryMap :=
  { mm0 with interrupt_master_enable := true, interrupt_enable := 0xff,
             interrupt_flag := 4 }

/-- A concrete memory state: reset memory with IME set, IE = 0xff and the
VBlank and Timer bits (bits 0 and 2) pending in IF. -/
def vbtMM : MemoryMap :=
  { mm0 with interrupt_master_enable := true, interrupt_enable := 0xff,
             interrupt_flag := 5 }

/-- A ROM image in which every byte equals the index of the 16 KiB bank it
lies in: bank 1 (the fixed switchable window contents) reads 1, bank 0x21
reads 0x21. -/
def bankMM : MemoryMap := { mm0 with rom := fun a => a / 0x4000 }

/-- C3: the claim says DIV increments once per 256 accumulated cycles
unconditionally, regardless of TAC's enable bit.  The code's own comment
(timer.rs:66, "increment div (always 16384 Hz)") agrees, but `Timer::run`
returns at timer.rs:39-41 before touching DIV whenever TAC's enable bit is
clear: with TAC = 0 and 256 cycles, DIV stays 0 (the accumulator is not even
advanced), while with the enable bit set (TAC = 4) the same 256 cycles
increment DIV to 1. -/
theorem C3_div_requires_tac_enable :
    (Timer.run Timer.new mm0 256).1.div = 0 ∧
    (Timer.run Timer.new mm0 256).1.last_div_tick = 0 ∧
    (Timer.run { Timer.new with tac := 4 } mm0 256).1.div = 1 := by
  decide

/-- C4: the claim says TIMA ticks every 1024/16/64/256 cycles for TAC clock
codes 0/1/2/3.  Codes 0-2 match the code, but for code 3 timer.rs:47 uses 25
cycles (the code's own comment at timer.rs:20, "11: 16384 Hz", implies 256,
as DIV's 16384 Hz rate does): with TAC = 0b111, TIMA increments after
25 cycles — 231 cycles early — while codes 0/1/2 increment after
1024/16/64 cycles exactly. -/
theorem C4_clock3_is_25_not_256 :
    (Timer.run { Timer.new with tac := 7 } mm0 25).1.tima = 1 ∧
    (Timer.run { Timer.new with tac := 7 } mm0 24).1.tima = 0 ∧
    (Timer.run { Timer.new with tac := 5 } mm0 16).1.tima = 1 ∧
    (Timer.run { Timer.new with tac := 5 } mm0 15).1.tima = 0 ∧
    (Timer.run { Timer.new with tac := 6 } mm0 64).1.tima = 1 ∧
    (Timer.run { Timer.new with tac := 6 } mm0 63).1.tima = 0 ∧
    (Timer.run { Timer.new with tac := 4 } mm0 1024).1.tima = 1 ∧
    (Timer.run { Timer.new with tac := 4 } mm0 1023).1.tima = 0 := by
  decide

/-- C9: `MemoryMap::read` leaves the entire machine state — RAM, OAM,
interrupt registers, timer, PPU, sound and joypad — unchanged, for every
address (I/O ports included): the returned map is the input map. -/
theorem C9_read_is_pure (mm : MemoryMap) (addr : Nat) :
    (MemoryMap.read mm addr).1 = mm :=
  read_fst mm addr

/-- C10: a `MemoryMap::write` of `v` to 0xff44 stores `v` into the PPU's LY
register (mem.rs:82 guards the store only on `write`, making the read-only
scanline coordinate writable through the memory map). -/
theorem C10_ly_writable (mm : MemoryMap) (v : Nat) :
    (MemoryMap.write mm 0xff44 v).lcd.ly = v := rfl

/-- C6 counterexample: with the bank-tagged ROM (`bankMM`, every byte of
bank `b` equal to `b`), writing the bank-select value 0x20 into the low ROM
range and then reading the switchable window at 0x4000 returns 1 — a byte of
bank 1, not of bank 0x21 as the claim requires (mem.rs:118-132 ignores ROM
writes and always reads `rom[addr]`; no bank-switching state exists). -/
theorem C6_counterexample :
    (MemoryMap.read (MemoryMap.write bankMM 0x2000 0x20) 0x4000).2 = 1 ∧
    ¬((MemoryMap.read (MemoryMap.write bankMM 0x2000 0x20) 0x4000).2 = 0x21) := by
  decide

/-- C6 amended: writes anywhere in the ROM range 0x0000-0x7fff (bank-select
values included) are complete no-ops on the machine state, and reads of any
ROM address always return `rom[addr]` — the switchable window 0x4000-0x7fff
permanently shows the fixed linear bank-1 image. -/
theorem C6_rom_writes_ignored (mm : MemoryMap) (addr v : Nat)
    (h : addr ≤ 0x7fff) :
    MemoryMap.write mm addr v = mm ∧
    (MemoryMap.read mm addr).2 = mm.rom addr := by
  constructor
  · unfold MemoryMap.write MemoryMap.handle_addr
    by_cases h1 : addr ≤ 0x3fff
    · rw [if_pos h1]
    · rw [if_neg h1, if_pos (by omega : addr ≤ 0x7fff)]
  · unfold MemoryMap.read MemoryMap.handle_addr
    by_cases h1 : addr ≤ 0x3fff
    · rw [if_pos h1]
    · rw [if_neg h1, if_pos (by omega : addr ≤ 0x7fff)]

/-- C6 witness: the amended statement at the concrete bank-select write. -/
theorem C6_rom_writes_ignored_witness :
    MemoryMap.write bankMM 0x2000 0x20 = bankMM ∧
    (MemoryMap.read bankMM 0x2000).2 = bankMM.rom 0x2000 :=
  C6_rom_writes_ignored bankMM 0x2000 0x20 (by norm_num)

/-- The f-register invariant (an 8-bit value with zero low nibble) is
preserved by each primitive f mutation of cpu.rs. -/
theorem applyFMut_preserves (f : Nat) (m : FMut) (h1 : f < 256)
    (h2 : f &&& 0x0f = 0) :
    applyFMut f m < 256 ∧ applyFMut f m &&& 0x0f = 0 := by
  cases m with
  | setAF v =>
    refine ⟨lt_of_le_of_lt Nat.and_le_right (by norm_num), ?_⟩
    show ((v &&& 0xff) &&& 0xf0) &&& 0x0f = 0
    rw [Nat.and_assoc, show ((0xf0 : Nat) &&& 0x0f) = 0 by decide, Nat.and_zero]
  | setZero b =>
    cases b with
    | true =>
      exact (by decide : ∀ g, g < 256 → g &&& 0x0f = 0 →
        (g ||| FLAG_ZERO) < 256 ∧ (g ||| FLAG_ZERO) &&& 0x0f = 0) f h1 h2
    | false =>
      exact (by decide : ∀ g, g < 256 → g &&& 0x0f = 0 →
        (g &&& (255 ^^^ FLAG_ZERO)) < 256 ∧
          (g &&& (255 ^^^ FLAG_ZERO)) &&& 0x0f = 0) f h1 h2
  | setSubtract b =>
    cases b with
    | true =>
      exact (by decide : ∀ g, g < 256 → g &&& 0x0f = 0 →
        (g ||| FLAG_SUBTRACT) < 256 ∧ (g ||| FLAG_SUBTRACT) &&& 0x0f = 0) f h1 h2
    | false =>
      exact (by decide : ∀ g, g < 256 → g &&& 0x0f = 0 →
        (g &&& (255 ^^^ FLAG_SUBTRACT)) < 256 ∧
          (g &&& (255 ^^^ FLAG_SUBTRACT)) &&& 0x0f = 0) f h1 h2
  | setHalfCarry b =>
    cases b with
    | true =>
      exact (by decide : ∀ g, g < 256 → g &&& 0x0f = 0 →
        (g ||| FLAG_HALF_CARRY) < 256 ∧
          (g ||| FLAG_HALF_CARRY) &&& 0x0f = 0) f h1 h2
    | false =>
      exact (by decide : ∀ g, g < 256 → g &&& 0x0f = 0 →
        (g &&& (255 ^^^ FLAG_HALF_CARRY)) < 256 ∧
          (g &&& (255 ^^^ FLAG_HALF_CARRY)) &&& 0x0f = 0) f h1 h2
  | setCarry b =>
    cases b with
    | true =>
      exact (by decide : ∀ g, g < 256 → g &&& 0x0f = 0 →
        (g ||| FLAG_CARRY) < 256 ∧ (g ||| FLAG_CARRY) &&& 0x0f = 0) f h1 h2
    | false =>
      exact (by decide : ∀ g, g < 256 → g &&& 0x0f = 0 →
        (g &&& (255 ^^^ FLAG_CARRY)) < 256 ∧
          (g &&& (255 ^^^ FLAG_CARRY)) &&& 0x0f = 0) f h1 h2

/-- The f invariant holds after any sequence of primitive f mutations. -/
theorem foldl_applyFMut_preserves (l : List FMut) : ∀ f, f < 256 →
    f &&& 0x0f = 0 →
    (l.foldl applyFMut f) < 256 ∧ (l.foldl applyFMut f) &&& 0x0f = 0 := by
  induction l with
  | nil => exact fun f h1 h2 => ⟨h1, h2⟩
  | cons m l ih =>
    intro f h1 h2
    have h := applyFMut_preserves f m h1 h2
    exact ih _ h.1 h.2

/-- C7: starting from `Cpu::new`'s F value (0xb0) and applying any sequence
of the primitive f mutations — which, by inspection of cpu.rs, are the only
assignments to `f` reachable by executing instructions (POP AF goes through
`set_af`, cpu.rs:85-89) and by interrupt servicing (which never touches
`f`) — the low 4 bits of F are zero. -/
theorem C7_f_low_nibble_zero (l : List FMut) :
    (l.foldl applyFMut Cpu.new.f) &&& 0x0f = 0 :=
  (foldl_applyFMut_preserves l Cpu.new.f (by decide) (by decide)).2

/-- C1: in a state with IME set, IE = 0xff and both the VBlank (bit 0) and
Timer (bit 2) IF bits set, and SP inside work RAM, the interrupt-service
check of `Cpu::run` services exactly one interrupt, VBlank: it clears IME,
clears only the VBlank IF bit (the Timer bit remains set), pushes PC (low
byte at `sp-2`) and jumps to vector 0x40; no other source is serviced in the
same check. -/
theorem C1_vblank_priority (c : Cpu) (mm : MemoryMap)
    (hime : mm.interrupt_master_enable = true)
    (hie : mm.interrupt_enable = 0xff)
    (hv : mm.interrupt_flag &&& 1 > 0)
    (ht : mm.interrupt_flag &&& 4 > 0)
    (hsp1 : 0xc002 ≤ c.sp) (hsp2 : c.sp ≤ 0xe000) :
    (Cpu.service_interrupts c mm).2.interrupt_master_enable = false ∧
    (Cpu.service_interrupts c mm).2.interrupt_flag =
      mm.interrupt_flag &&& 0xfe ∧
    (Cpu.service_interrupts c mm).2.interrupt_flag &&& 4 > 0 ∧
    (Cpu.service_interrupts c mm).1.pc = 0x40 ∧
    (Cpu.service_interrupts c mm).1.sp = c.sp - 2 ∧
    (MemoryMap.read (Cpu.service_interrupts c mm).2 (c.sp - 2)).2 =
      c.pc &&& 0xff ∧
    (MemoryMap.read (Cpu.service_interrupts c mm).2 (c.sp - 1)).2 =
      (c.pc >>> 8) &&& 255 := by
  have hpend : mm.interrupt_enable &&& 1 > 0 ∧ mm.interrupt_flag &&& 1 > 0 :=
    ⟨by rw [hie]; decide, hv⟩
  rw [service_fires_vblank c mm hime hpend hsp1 hsp2]
  refine ⟨rfl, rfl, ?_, rfl, rfl, ?_, ?_⟩
  · show (mm.interrupt_flag &&& (255 ^^^ 1)) &&& 4 > 0
    rw [Nat.and_assoc, show ((255 ^^^ 1 : Nat) &&& 4) = 4 by decide]
    exact ht
  · rw [read_wram _ _ (by omega) (by omega)]
    simp only []
    rw [upd_same]
  · rw [read_wram _ _ (by omega) (by omega)]
    simp only []
    rw [upd_other _ _ _ _ (by omega), upd_same]

/-- C1 witness: the theorem at the concrete state `cexCpu`/`vbtMM`
(IF = 5 = VBlank ∨ Timer). -/
theorem C1_vblank_priority_witness :
    (Cpu.service_interrupts cexCpu vbtMM).2.interrupt_master_enable = false ∧
    (Cpu.service_interrupts cexCpu vbtMM).2.interrupt_flag =
      vbtMM.interrupt_flag &&& 0xfe ∧
    (Cpu.service_interrupts cexCpu vbtMM).2.interrupt_flag &&& 4 > 0 ∧
    (Cpu.service_interrupts cexCpu vbtMM).1.pc = 0x40 ∧
    (Cpu.service_interrupts cexCpu vbtMM).1.sp = cexCpu.sp - 2 ∧
    (MemoryMap.read (Cpu.service_interrupts cexCpu vbtMM).2
      (cexCpu.sp - 2)).2 = cexCpu.pc &&& 0xff ∧
    (MemoryMap.read (Cpu.service_interrupts cexCpu vbtMM).2
      (cexCpu.sp - 1)).2 = (cexCpu.pc >>> 8) &&& 255 :=
  C1_vblank_priority cexCpu vbtMM rfl rfl (by decide) (by decide)
    (by decide) (by decide)

/-- C5 counterexample: at the concrete state `cexCpu`/`cexMM` (IME set,
IE = 0xff, Timer IF bit pending, SP = 0xd000, 100 accumulated cycles) the
check does service an interrupt — PC becomes 0x50, IME is cleared — yet the
cycle counter stays at 100: it is not increased by 20 as the claim states. -/
theorem C5_counterexample :
    (Cpu.service_interrupts cexCpu cexMM).1.pc = 0x50 ∧
    (Cpu.service_interrupts cexCpu cexMM).2.interrupt_master_enable = false ∧
    (Cpu.service_interrupts cexCpu cexMM).1.cycles = 100 ∧
    ¬((Cpu.service_interrupts cexCpu cexMM).1.cycles = cexCpu.cycles + 20) := by
  refine ⟨?_, ?_, ?_, ?_⟩ <;> decide

/-- C5 amended: whenever the CPU services a pending interrupt (IME set,
source `i` pending in both IE and IF, no higher-priority source pending, SP
in work RAM), servicing pushes PC, jumps to the source's fixed vector
`0x40 + 8*i`, clears the halted flag, clears IME and the source's IF bit —
and leaves the CPU cycle counter unchanged (no 20-cycle cost is added). -/
theorem C5_service_adds_no_cycles (c : Cpu) (mm : MemoryMap) (i : Nat)
    (hi : i < 5)
    (hime : mm.interrupt_master_enable = true)
    (hpend : mm.interrupt_enable &&& 2^i > 0 ∧ mm.interrupt_flag &&& 2^i > 0)
    (hskip : ∀ j, j < i →
      ¬(mm.interrupt_enable &&& 2^j > 0 ∧ mm.interrupt_flag &&& 2^j > 0))
    (hsp1 : 0xc002 ≤ c.sp) (hsp2 : c.sp ≤ 0xe000) :
    (Cpu.service_interrupts c mm).1.cycles = c.cycles ∧
    (Cpu.service_interrupts c mm).1.pc = 0x40 + 8 * i ∧
    (Cpu.service_interrupts c mm).1.halt = false ∧
    (Cpu.service_interrupts c mm).1.sp = c.sp - 2 ∧
    (Cpu.service_interrupts c mm).2.interrupt_master_enable = false ∧
    (Cpu.service_interrupts c mm).2.interrupt_flag =
      mm.interrupt_flag &&& (255 ^^^ 2^i) ∧
    (MemoryMap.read (Cpu.service_interrupts c mm).2 (c.sp - 2)).2 =
      c.pc &&& 0xff ∧
    (MemoryMap.read (Cpu.service_interrupts c mm).2 (c.sp - 1)).2 =
      (c.pc >>> 8) &&& 255 := by
  rw [service_fires c mm i hi hime hpend hskip hsp1 hsp2]
  refine ⟨rfl, rfl, rfl, rfl, rfl, rfl, ?_, ?_⟩
  · rw [read_wram _ _ (by omega) (by omega)]
    simp only []
    rw [upd_same]
  · rw [read_wram _ _ (by omega) (by omega)]
    simp only []
    rw [upd_other _ _ _ _ (by omega), upd_same]

/-- C5 witness: the amended theorem at `cexCpu`/`cexMM` with the Timer
source (i = 2). -/
theorem C5_service_adds_no_cycles_witness :
    (Cpu.service_interrupts cexCpu cexMM).1.cycles = cexCpu.cycles ∧
    (Cpu.service_interrupts cexCpu cexMM).1.pc = 0x40 + 8 * 2 ∧
    (Cpu.service_interrupts cexCpu cexMM).1.halt = false ∧
    (Cpu.service_interrupts cexCpu cexMM).1.sp = cexCpu.sp - 2 ∧
    (Cpu.service_interrupts cexCpu cexMM).2.interrupt_master_enable = false ∧
    (Cpu.service_interrupts cexCpu cexMM).2.interrupt_flag =
      cexMM.interrupt_flag &&& (255 ^^^ 2^2) ∧
    (MemoryMap.read (Cpu.service_interrupts cexCpu cexMM).2
      (cexCpu.sp - 2)).2 = cexCpu.pc &&& 0xff ∧
    (MemoryMap.read (Cpu.service_interrupts cexCpu cexMM).2
      (cexCpu.sp - 1)).2 = (cexCpu.pc >>> 8) &&& 255 :=
  C5_service_adds_no_cycles cexCpu cexMM 2 (by norm_num) rfl
    (by decide) (by decide) (by decide) (by decide)

/-- cpu.rs:2207 `pop de` through `Cpu::run` (opcode 0xd1) with SP inside
work RAM, no pending interrupt service (IME clear) and the CPU not halted,
in record form. -/
theorem run_pop_de_wram (c1 : Cpu) (mm1 : MemoryMap)
    (hhalt : c1.halt = false) (hime : mm1.interrupt_master_enable = false)
    (hsp1 : 0xc000 ≤ c1.sp) (hsp2 : c1.sp + 1 ≤ 0xdfff) :
    Cpu.run_pop_de c1 mm1 =
      ({ c1 with
          d := (((mm1.wram (c1.sp + 1 - 0xc000)) <<< 8 |||
                 mm1.wram (c1.sp - 0xc000)) >>> 8) &&& 255,
          e := ((mm1.wram (c1.sp + 1 - 0xc000)) <<< 8 |||
                 mm1.wram (c1.sp - 0xc000)) &&& 0xff,
          sp := c1.sp + 2, cycles := c1.cycles + 12,
          pc := u16add c1.pc 1 }, mm1) := by
  unfold Cpu.run_pop_de
  rw [hhalt]
  simp only [Bool.false_eq_true, if_false]
  rw [stack_read_wram c1 mm1 (by omega) (by omega)]
  simp only [service_interrupts_not_ime, hime, Cpu.set_de]
  rw [hhalt]

/-- C8: for a 16-bit value `v`, a non-halted CPU whose SP points into work
RAM, and no serviceable interrupt (IME clear), setting BC = v and executing
PUSH BC (opcode 0xc5) then POP DE (opcode 0xd1) through `Cpu::run` yields
DE = v with SP back at its original value; the PUSH decrements SP by 2 and
stores the low byte at the lower address (`sp-2`), the POP reads them back
in the inverse order and increments SP by 2. -/
theorem C8_push_pop_roundtrip (c : Cpu) (mm : MemoryMap) (v : Nat)
    (hv : v < 65536) (hhalt : c.halt = false)
    (hsp1 : 0xc002 ≤ c.sp) (hsp2 : c.sp ≤ 0xe000)
    (hime : mm.interrupt_master_enable = false) :
    (Cpu.run_pop_de (Cpu.run_push_bc (Cpu.set_bc c v) mm).1
      (Cpu.run_push_bc (Cpu.set_bc c v) mm).2).1.de = v ∧
    (Cpu.run_pop_de (Cpu.run_push_bc (Cpu.set_bc c v) mm).1
      (Cpu.run_push_bc (Cpu.set_bc c v) mm).2).1.sp = c.sp ∧
    (Cpu.run_push_bc (Cpu.set_bc c v) mm).1.sp = c.sp - 2 ∧
    (MemoryMap.read (Cpu.run_push_bc (Cpu.set_bc c v) mm).2 (c.sp - 2)).2 =
      v &&& 0xff ∧
    (MemoryMap.read (Cpu.run_push_bc (Cpu.set_bc c v) mm).2 (c.sp - 1)).2 =
      (v >>> 8) &&& 255 := by
  have hbc : (Cpu.set_bc c v).bc = v := by
    show ((((v >>> 8) &&& 255) <<< 8) ||| (v &&& 0xff)) = v
    exact recompose_u16 v hv
  have epush : Cpu.run_push_bc (Cpu.set_bc c v) mm =
      ({ c with b := (v >>> 8) &&& 255, c := v &&& 0xff, sp := c.sp - 2,
                cycles := c.cycles + 16, pc := u16add c.pc 1 },
       { mm with wram := (upd (upd mm.wram (c.sp - 1 - 0xc000)
           ((v >>> 8) &&& 255)) (c.sp - 2 - 0xc000) (v &&& 0xff)) }) := by
    unfold Cpu.run_push_bc
    rw [show (Cpu.set_bc c v).halt = false from hhalt]
    simp only [Bool.false_eq_true, if_false]
    rw [hbc, stack_write_wram (Cpu.set_bc c v) mm v hsp1 hsp2]
    simp only [service_interrupts_not_ime, hime]
    rfl
  rw [epush]
  rw [run_pop_de_wram
    { c with b := (v >>> 8) &&& 255, c := v &&& 0xff, sp := c.sp - 2,
             cycles := c.cycles + 16, pc := u16add c.pc 1 }
    { mm with wram := (upd (upd mm.wram (c.sp - 1 - 0xc000)
        ((v >>> 8) &&& 255)) (c.sp - 2 - 0xc000) (v &&& 0xff)) }
    hhalt hime ((by omega : (0xc000 : Nat) ≤ c.sp - 2))
    ((by omega : c.sp - 2 + 1 ≤ (0xdfff : Nat)))]
  refine ⟨?_, ?_, rfl, ?_, ?_⟩
  · simp only [Cpu.de]
    rw [show c.sp - 2 + 1 - 0xc000 = c.sp - 1 - 0xc000 by omega,
      upd_other _ _ _ _ (by omega), upd_same, upd_same,
      recompose_u16 v hv, recompose_u16 v hv]
  · simp only []
    omega
  · rw [read_wram _ _ (by omega) (by omega)]
    simp only []
    rw [upd_same]
  · rw [read_wram _ _ (by omega) (by omega)]
    simp only []
    rw [upd_other _ _ _ _ (by omega), upd_same]

/-- cpu.rs:2106 `push bc` witness state: post-boot CPU with SP = 0xd000. -/
def wCpu : Cpu := { Cpu.new with sp := 0xd000 }

/-- C8 witness: the round-trip at the concrete state `wCpu`/`mm0` with
v = 0x1234. -/
theorem C8_push_pop_roundtrip_witness :
    (Cpu.run_pop_de (Cpu.run_push_bc (Cpu.set_bc wCpu 0x1234) mm0).1
      (Cpu.run_push_bc (Cpu.set_bc wCpu 0x1234) mm0).2).1.de = 0x1234 ∧
    (Cpu.run_pop_de (Cpu.run_push_bc (Cpu.set_bc wCpu 0x1234) mm0).1
      (Cpu.run_push_bc (Cpu.set_bc wCpu 0x1234) mm0).2).1.sp = wCpu.sp ∧
    (Cpu.run_push_bc (Cpu.set_bc wCpu 0x1234) mm0).1.sp = wCpu.sp - 2 ∧
    (MemoryMap.read (Cpu.run_push_bc (Cpu.set_bc wCpu 0x1234) mm0).2
      (wCpu.sp - 2)).2 = 0x1234 &&& 0xff ∧
    (MemoryMap.read (Cpu.run_push_bc (Cpu.set_bc wCpu 0x1234) mm0).2
      (wCpu.sp - 1)).2 = (0x1234 >>> 8) &&& 255 :=
  C8_push_pop_roundtrip wCpu mm0 0x1234 (by norm_num) rfl (by decide)
    (by decide) rfl

/-- One 4-cycle `Lcd::run` advance from a mode-0/1/2/3 state against the
reset memory map `mm0` neither touches the memory map (the STAT interrupt
enables are clear and IME is off) nor leaves the mode bits of STAT above 3. -/
theorem lcd_run4_mm0 (l : Lcd) (h : l.stat < 4) :
    (Lcd.run l mm0 4).2.1 = mm0 ∧ (Lcd.run l mm0 4).1.stat < 4 := by
  obtain ⟨ctl, stat, scy, scx, ly, lyc, wy, wx, bgp, obp0, obp1, dma, cyc⟩ := l
  simp only at h
  interval_cases stat <;>
    simp only [Lcd.run, Lcd.interrupt_enabled, mm0, LCD_STATUS_MODE,
      LCD_STATUS_MODE_2_OAM_INTERRUPT, LCD_STATUS_MODE_1_VBLANK_INTERRUPT,
      LCD_STATUS_MODE_0_HBLANK_INTERRUPT, LCD_STATUS_LY_COINCIDENCE_INTERRUPT] <;>
    split_ifs <;> simp_all +decide

/-- The full-state PPU simulation `lcdSim` agrees with the reduced
simulation `lstep`: along the run from reset the memory map stays `mm0` and
STAT's mode bits stay below 4. -/
theorem lcdSim_eq (n : Nat) :
    (lstep^[n] (Lcd.new, 0)).1.stat < 4 ∧
      lcdSim n = ((lstep^[n] (Lcd.new, 0)).1, mm0, (lstep^[n] (Lcd.new, 0)).2) := by
  induction n with
  | zero => exact ⟨by decide, rfl⟩
  | succ n ih =>
    obtain ⟨h1, h2⟩ := ih
    have hrun := lcd_run4_mm0 (lstep^[n] (Lcd.new, 0)).1 h1
    constructor
    · rw [Function.iterate_succ_apply']
      simpa [lstep] using hrun.2
    · show lcdStep (lcdSim n) = _
      rw [h2, Function.iterate_succ_apply']
      simp [lcdStep, lstep, hrun.1]

/-- C2 counterexample: starting the PPU timing state machine at reset
(mode 0, LY = 0, counter 0) and advancing it by exactly 70224 cycles of
reported CPU time (17556 advances of 4 cycles, the smallest per-instruction
delta), LY ends at 156 — not 0, and above 153 — so the run neither returns
LY to 0 nor keeps LY ≤ 153 as the claim states. -/
theorem C2_counterexample :
    (lcdSim 17556).1.ly = 156 ∧ ¬((lcdSim 17556).1.ly = 0) ∧
      153 < (lcdSim 17556).1.ly := by
  rw [(lcdSim_eq 17556).2, lcdChain_17556]
  exact ⟨rfl, by decide, by decide⟩

/-- C2 amended: advancing the reset PPU by exactly 70224 cycles of reported
CPU time (17556 4-cycle deltas) yields exactly one HBlank-to-VBlank
transition but leaves LY at 156: lcd.rs never resets LY at line 153;
LY keeps counting through VBlank and wraps to 0 only by 8-bit overflow after
line 255, at cycle 115444 (step 28861), where VBlank is finally exited into
mode 0. -/
theorem C2_frame_cadence :
    (lcdSim 17556).2.2 = 1 ∧ (lcdSim 17556).1.ly = 156 ∧
    (lcdSim 28860).1.ly = 255 ∧ (lcdSim 28861).1.ly = 0 ∧
    (lcdSim 28861).1.stat &&& LCD_STATUS_MODE = 0 ∧ 17556 * 4 = 70224 := by
  rw [(lcdSim_eq 17556).2, (lcdSim_eq 28860).2, (lcdSim_eq 28861).2,
    lcdChain_17556, lcdChain_28860, lcdChain_28861]
  exact ⟨rfl, rfl, rfl, rfl, by decide, by norm_num⟩

end RustBoy
